import Mathlib

/-!
Verification development for the BESSER MCP server.

The server (files `utils.py`, `creation.py`, `delete.py`, `generators.py`,
`info.py`) wraps the external BESSER modeling library: every tool call
deserializes a domain model, forwards to a library call, reserializes, and
returns a string.  This file gives a shallow embedding of that adapter layer:

* the B-UML structural entities, exactly as far as the server observes and
  constructs them (back references such as `Property.owner`, timestamps and
  metadata, which the server threads through but never inspects, are dropped);
* the pickle/base64 transport codec of `utils.py`;
* the `base_add_*` / `base_delete_*` mutation helpers and the generator
  facade, with every external library call that can raise going through an
  explicit `Lib` record of oracles, so that the error-conversion discipline
  can be proved for every possible library behavior.

Python exceptions are modeled with `Except PyExc`; `try/except` blocks become
matches on those values.  In-place mutation of the model object is modeled by
returning the post-call model state next to the returned value (`OpOut`).
-/

/-- Python exception values, distinguished only as far as the server's
handlers do: `except ValueError` clauses match `valueError`, bare
`except Exception` clauses match everything.  `str(e)` is the `msg` field. -/
inductive PyExc where
  | valueError (msg : String)
  | attributeError (msg : String)
  | runtimeError (msg : String)
  | otherError (msg : String)
deriving DecidableEq, Repr

/-- Python `str(e)` on a caught exception. -/
def PyExc.pyStr : PyExc → String
  | .valueError m | .attributeError m | .runtimeError m | .otherError m => m

/-- Whether an `except ValueError` clause catches this exception. -/
def PyExc.isValueError : PyExc → Bool
  | .valueError _ => true
  | _ => false

/-- The `max` argument of `Multiplicity(min, max)`: an `int` or the string
`"*"`, exactly the two shapes `multiplicity_from_string` passes. -/
inductive MultMax where
  | num (n : Int)
  | star
deriving DecidableEq, Repr

/-- The BESSER `Multiplicity` value as constructed by the server
(`Multiplicity(min, max)` in `utils.py`). -/
structure Multiplicity where
  min : Int
  max : MultMax
deriving DecidableEq, Repr

/-- The `multiplicity` argument actually stored on a `Property`: the server
passes either a `Multiplicity` object (`base_add_attribute_to_class`) or the
plain string `"1"` (`base_sql_generation`); the library constructor stores
whatever it is given. -/
inductive PyMult where
  | obj (m : Multiplicity)
  | raw (s : String)
deriving DecidableEq, Repr

/-- The BESSER `Property` as constructed by the server.  `typeName` is the
name of the `type` argument (`none` when the looked-up type was Python
`None`).  The `owner` back reference, timestamp and metadata are dropped:
the server never reads them. -/
structure Property where
  name : String
  typeName : Option String
  mult : PyMult
  visibility : String
  isComposite : Bool
  isNavigable : Bool
  isId : Bool
  isReadOnly : Bool
deriving DecidableEq, Repr

/-- The BESSER `Parameter(param_name, param_type)` as constructed in
`base_add_method_to_class`. -/
structure Param where
  name : String
  typeName : Option String
deriving DecidableEq, Repr

/-- The BESSER `Method` as constructed by the server (owner, timestamp and
metadata dropped). -/
structure MMethod where
  name : String
  visibility : String
  isAbstract : Bool
  params : List Param
  retTypeName : Option String
  code : String
deriving DecidableEq, Repr

/-- The BESSER `Class` as far as the server observes it. -/
structure MClass where
  name : String
  attributes : List Property
  methods : List MMethod
  isAbstract : Bool
  isReadOnly : Bool
deriving DecidableEq, Repr

/-- A member of `DomainModel.types`: a class, an enumeration (literal names
only), or a primitive data type such as the built-in `int`.  Association
classes are represented through `cls` (in BESSER, `AssociationClass` is a
`Class` subclass; the association back reference is never read back by the
server). -/
inductive MType where
  | cls (c : MClass)
  | enum (name : String) (literals : List String)
  | primitive (name : String)
deriving DecidableEq, Repr

/-- The `name` attribute shared by all BESSER types. -/
def MType.name : MType → String
  | .cls c => c.name
  | .enum n _ => n
  | .primitive n => n

/-- The BESSER `BinaryAssociation(name, {from_end, to_end}, ...)` as
constructed in `base_add_binary_association`; the two `Property` ends are
kept as a list. -/
structure Association where
  name : String
  ends : List Property
deriving DecidableEq, Repr

/-- The BESSER `Generalization(general, specific)`; the server identifies the
two classes by name. -/
structure Generalization where
  general : String
  specific : String
deriving DecidableEq, Repr

/-- The BESSER `Constraint(name, context, expression, language)` as
constructed in `base_add_ocl_constraint`. -/
structure Constraint where
  name : String
  contextName : Option String
  expression : String
  language : String
deriving DecidableEq, Repr

/-- The BESSER `DomainModel` as far as the server observes it. -/
structure DomainModel where
  name : String
  types : List MType
  associations : List Association
  generalizations : List Generalization
  constraints : List Constraint
deriving DecidableEq, Repr

/-- Models the library call `DomainModel.get_classes()`: the members of
`types` that are classes. -/
def getClasses (m : DomainModel) : List MClass :=
  m.types.filterMap fun t => match t with
    | .cls c => some c
    | _ => none

/-- Models the library call `DomainModel.get_type_by_name(name)`: the first
type with that name, or Python `None`. -/
def getTypeByName (m : DomainModel) (n : String) : Option MType :=
  m.types.find? fun t => t.name == n

/-- Models the Python fallback `domain_model.types.add(new_class)` in
`base_add_class`: inserting into a set of library objects, which are compared
by identity, always adds the freshly constructed element. -/
def typesAdd (m : DomainModel) (t : MType) : DomainModel :=
  { m with types := m.types ++ [t] }

/-- Replace the first type named `n` (the one `get_type_by_name` found) by
`f` of it, modeling an in-place mutation of that object. -/
def updateTypeNamed (n : String) (f : MType → MType) : List MType → List MType
  | [] => []
  | t :: ts => if t.name == n then f t :: ts else t :: updateTypeNamed n f ts

/-! ### Transport codec (`utils.py`)

`serialize_domain_model` is `base64.b64encode(pickle.dumps(model))`;
`deserialize_domain_model` is `pickle.loads(base64.b64decode(token + b"=="))`
with failures re-raised as `RuntimeError`.  The pickle module is external;
it is modeled here as a concrete injective byte serialization of the object
graph, with `pickleLoads` inverting `pickleDumps` — the documented contract
`pickle.loads(pickle.dumps(x))` reconstructs an equal object graph.  Bytes
are naturals (kept `< 256` by construction). -/

/-- Self-delimiting byte encoding of a natural: its base-255 digits followed
by the terminator byte 255. -/
def encNat (n : Nat) : List Nat :=
  Nat.digits 255 n ++ [255]

/-- Read bytes up to the terminator 255. -/
def decNatAux : List Nat → Option (List Nat × List Nat)
  | [] => none
  | b :: r =>
    if b = 255 then some ([], r)
    else
      match decNatAux r with
      | some (ds, rest) => some (b :: ds, rest)
      | none => none

/-- Decode a natural from a byte stream, returning the remainder. -/
def decNat (l : List Nat) : Option (Nat × List Nat) :=
  match decNatAux l with
  | some (ds, rest) => some (Nat.ofDigits 255 ds, rest)
  | none => none

/-- Sign byte followed by the absolute value. -/
def encInt (i : Int) : List Nat :=
  (if i < 0 then 1 else 0) :: encNat i.natAbs

/-- Decode an integer from a byte stream. -/
def decInt : List Nat → Option (Int × List Nat)
  | [] => none
  | s :: r =>
    match decNat r with
    | some (n, rest) => some (if s = 1 then -(n : Int) else (n : Int), rest)
    | none => none

/-- One byte for a boolean. -/
def encBool (b : Bool) : List Nat :=
  [if b then 1 else 0]

/-- Decode a boolean from a byte stream. -/
def decBool : List Nat → Option (Bool × List Nat)
  | [] => none
  | b :: r => some (b = 1, r)

/-- A character as its code point. -/
def encChar (c : Char) : List Nat :=
  encNat c.toNat

/-- Decode a character from a byte stream. -/
def decChar (l : List Nat) : Option (Char × List Nat) :=
  match decNat l with
  | some (n, rest) => some (Char.ofNat n, rest)
  | none => none

/-- Length-prefixed sequence. -/
def encList (enc : α → List Nat) (xs : List α) : List Nat :=
  encNat xs.length ++ (xs.map enc).flatten

/-- Decode exactly `n` elements. -/
def decListN (dec : List Nat → Option (α × List Nat)) :
    Nat → List Nat → Option (List α × List Nat)
  | 0, l => some ([], l)
  | n + 1, l =>
    match dec l with
    | some (a, r) =>
      match decListN dec n r with
      | some (as, r2) => some (a :: as, r2)
      | none => none
    | none => none

/-- Decode a length-prefixed sequence. -/
def decList (dec : List Nat → Option (α × List Nat)) (l : List Nat) :
    Option (List α × List Nat) :=
  match decNat l with
  | some (n, r) => decListN dec n r
  | none => none

/-- A string as its length-prefixed code points. -/
def encString (s : String) : List Nat :=
  encList encChar s.data

/-- Decode a string from a byte stream. -/
def decString (l : List Nat) : Option (String × List Nat) :=
  match decList decChar l with
  | some (cs, rest) => some (String.mk cs, rest)
  | none => none

/-- Tagged optional value. -/
def encOption (enc : α → List Nat) : Option α → List Nat
  | none => [0]
  | some a => 1 :: enc a

/-- Decode a tagged optional value. -/
def decOption (dec : List Nat → Option (α × List Nat)) :
    List Nat → Option (Option α × List Nat)
  | 0 :: r => some (none, r)
  | 1 :: r =>
    match dec r with
    | some (a, rest) => some (some a, rest)
    | none => none
  | _ => none

/-- Encoder for the `max` field of a multiplicity. -/
def encMultMax : MultMax → List Nat
  | .num n => 0 :: encInt n
  | .star => [1]

/-- Decoder for the `max` field of a multiplicity. -/
def decMultMax : List Nat → Option (MultMax × List Nat)
  | 0 :: r =>
    match decInt r with
    | some (n, rest) => some (.num n, rest)
    | none => none
  | 1 :: r => some (.star, r)
  | _ => none

/-- Encoder for `Multiplicity`. -/
def encMultiplicity (m : Multiplicity) : List Nat :=
  encInt m.min ++ encMultMax m.max

/-- Decoder for `Multiplicity`. -/
def decMultiplicity (l : List Nat) : Option (Multiplicity × List Nat) := do
  let (mn, l) ← decInt l
  let (mx, l) ← decMultMax l
  return ({ min := mn, max := mx }, l)

/-- Encoder for the stored multiplicity argument of a property. -/
def encPyMult : PyMult → List Nat
  | .obj m => 0 :: encMultiplicity m
  | .raw s => 1 :: encString s

/-- Decoder for the stored multiplicity argument of a property. -/
def decPyMult : List Nat → Option (PyMult × List Nat)
  | 0 :: r =>
    match decMultiplicity r with
    | some (m, rest) => some (.obj m, rest)
    | none => none
  | 1 :: r =>
    match decString r with
    | some (s, rest) => some (.raw s, rest)
    | none => none
  | _ => none

/-- Encoder for `Property`. -/
def encProperty (p : Property) : List Nat :=
  encString p.name ++ encOption encString p.typeName ++ encPyMult p.mult ++
    encString p.visibility ++ encBool p.isComposite ++ encBool p.isNavigable ++
    encBool p.isId ++ encBool p.isReadOnly

/-- Decoder for `Property`. -/
def decProperty (l : List Nat) : Option (Property × List Nat) := do
  let (name, l) ← decString l
  let (typeName, l) ← decOption decString l
  let (mult, l) ← decPyMult l
  let (visibility, l) ← decString l
  let (isComposite, l) ← decBool l
  let (isNavigable, l) ← decBool l
  let (isId, l) ← decBool l
  let (isReadOnly, l) ← decBool l
  return ({ name := name, typeName := typeName, mult := mult,
            visibility := visibility, isComposite := isComposite,
            isNavigable := isNavigable, isId := isId,
            isReadOnly := isReadOnly }, l)

/-- Encoder for `Param`. -/
def encParam (p : Param) : List Nat :=
  encString p.name ++ encOption encString p.typeName

/-- Decoder for `Param`. -/
def decParam (l : List Nat) : Option (Param × List Nat) := do
  let (name, l) ← decString l
  let (typeName, l) ← decOption decString l
  return ({ name := name, typeName := typeName }, l)

/-- Encoder for `MMethod`. -/
def encMMethod (m : MMethod) : List Nat :=
  encString m.name ++ encString m.visibility ++ encBool m.isAbstract ++
    encList encParam m.params ++ encOption encString m.retTypeName ++
    encString m.code

/-- Decoder for `MMethod`. -/
def decMMethod (l : List Nat) : Option (MMethod × List Nat) := do
  let (name, l) ← decString l
  let (visibility, l) ← decString l
  let (isAbstract, l) ← decBool l
  let (params, l) ← decList decParam l
  let (retTypeName, l) ← decOption decString l
  let (code, l) ← decString l
  return ({ name := name, visibility := visibility, isAbstract := isAbstract,
            params := params, retTypeName := retTypeName, code := code }, l)

/-- Encoder for `MClass`. -/
def encMClass (c : MClass) : List Nat :=
  encString c.name ++ encList encProperty c.attributes ++
    encList encMMethod c.methods ++ encBool c.isAbstract ++ encBool c.isReadOnly

/-- Decoder for `MClass`. -/
def decMClass (l : List Nat) : Option (MClass × List Nat) := do
  let (name, l) ← decString l
  let (attributes, l) ← decList decProperty l
  let (methods, l) ← decList decMMethod l
  let (isAbstract, l) ← decBool l
  let (isReadOnly, l) ← decBool l
  return ({ name := name, attributes := attributes, methods := methods,
            isAbstract := isAbstract, isReadOnly := isReadOnly }, l)

/-- Encoder for `MType`. -/
def encMType : MType → List Nat
  | .cls c => 0 :: encMClass c
  | .enum n lits => 1 :: (encString n ++ encList encString lits)
  | .primitive n => 2 :: encString n

/-- Decoder for `MType`. -/
def decMType : List Nat → Option (MType × List Nat)
  | 0 :: r =>
    match decMClass r with
    | some (c, rest) => some (.cls c, rest)
    | none => none
  | 1 :: r => do
    let (n, rest) ← decString r
    let (lits, rest) ← decList decString rest
    return (.enum n lits, rest)
  | 2 :: r =>
    match decString r with
    | some (n, rest) => some (.primitive n, rest)
    | none => none
  | _ => none

/-- Encoder for `Association`. -/
def encAssociation (a : Association) : List Nat :=
  encString a.name ++ encList encProperty a.ends

/-- Decoder for `Association`. -/
def decAssociation (l : List Nat) : Option (Association × List Nat) := do
  let (name, l) ← decString l
  let (ends, l) ← decList decProperty l
  return ({ name := name, ends := ends }, l)

/-- Encoder for `Generalization`. -/
def encGeneralization (g : Generalization) : List Nat :=
  encString g.general ++ encString g.specific

/-- Decoder for `Generalization`. -/
def decGeneralization (l : List Nat) : Option (Generalization × List Nat) := do
  let (general, l) ← decString l
  let (specific, l) ← decString l
  return ({ general := general, specific := specific }, l)

/-- Encoder for `Constraint`. -/
def encConstraint (c : Constraint) : List Nat :=
  encString c.name ++ encOption encString c.contextName ++
    encString c.expression ++ encString c.language

/-- Decoder for `Constraint`. -/
def decConstraint (l : List Nat) : Option (Constraint × List Nat) := do
  let (name, l) ← decString l
  let (contextName, l) ← decOption decString l
  let (expression, l) ← decString l
  let (language, l) ← decString l
  return ({ name := name, contextName := contextName,
            expression := expression, language := language }, l)

/-- Models `pickle.dumps(domain_model)`: an injective serialization of the
model graph to a byte stream. -/
def pickleDumps (m : DomainModel) : List Nat :=
  encString m.name ++ encList encMType m.types ++
    encList encAssociation m.associations ++
    encList encGeneralization m.generalizations ++
    encList encConstraint m.constraints

/-- Models `pickle.loads`: inverts `pickleDumps`, failing (`none`, which the
caller raises as an unpickling error) on streams `pickleDumps` cannot have
produced; like `pickle.loads`, trailing bytes after the encoded object are
ignored. -/
def pickleLoads (l : List Nat) : Option DomainModel := do
  let (name, l) ← decString l
  let (types, l) ← decList decMType l
  let (associations, l) ← decList decAssociation l
  let (generalizations, l) ← decList decGeneralization l
  let (constraints, _) ← decList decConstraint l
  return { name := name, types := types, associations := associations,
           generalizations := generalizations, constraints := constraints }

/-! ### Base64 layer

`b64encodeBytes`/`b64decodeLenient` model `base64.b64encode` and
`base64.b64decode` (via `binascii.a2b_base64` in its default lenient mode:
characters outside the alphabet are skipped and decoding stops at the first
padding character, so the `+ b"=="` appended by `deserialize_domain_model`
is harmless on already-padded input). -/

/-- The base64 alphabet. -/
def b64Alphabet : List Char :=
  "ABCDEFGHIJKLMNOPQRSTUVWXYZabcdefghijklmnopqrstuvwxyz0123456789+/".data

/-- The character for a sextet. -/
def b64c (n : Nat) : Char :=
  b64Alphabet.getD n 'A'

/-- The sextet for a character, `none` for characters outside the alphabet
(which lenient decoding skips). -/
def decB64c (c : Char) : Option Nat :=
  b64Alphabet.indexOf? c

/-- `base64.b64encode` on a byte list, producing the padded character
stream. -/
def b64encodeBytes : List Nat → List Char
  | a :: b :: c :: rest =>
    b64c (a / 4) :: b64c (a % 4 * 16 + b / 16) ::
      b64c (b % 16 * 4 + c / 64) :: b64c (c % 64) :: b64encodeBytes rest
  | [a, b] => [b64c (a / 4), b64c (a % 4 * 16 + b / 16), b64c (b % 16 * 4), '=']
  | [a] => [b64c (a / 4), b64c (a % 4 * 16), '=', '=']
  | [] => []

/-- Reassemble bytes from a sextet stream; a single leftover sextet is a
decoding error (`binascii.Error: invalid padding`). -/
def decSextets : List Nat → Option (List Nat)
  | [] => some []
  | [_] => none
  | [x, y] => some [x * 4 + y / 16]
  | [x, y, z] => some [x * 4 + y / 16, y % 16 * 16 + z / 4]
  | x :: y :: z :: w :: rest =>
    match decSextets rest with
    | some bs => some ((x * 4 + y / 16) :: (y % 16 * 16 + z / 4) :: (z % 4 * 64 + w) :: bs)
    | none => none

/-- `base64.b64decode` in lenient mode: stop at the first padding character,
skip non-alphabet characters, reassemble bytes. -/
def b64decodeLenient (cs : List Char) : Option (List Nat) :=
  decSextets ((cs.takeWhile fun c => c ≠ '=').filterMap decB64c)

/-- `serialize_domain_model` (`utils.py`): pickle, then base64, then decode
to an ASCII string.  The `except` path of the source (pickle failing) is
unreachable here because the embedded object graph is always serializable. -/
def serializeDomainModel (m : DomainModel) : String :=
  String.mk (b64encodeBytes (pickleDumps m))

/-- `deserialize_domain_model` (`utils.py`): `model_base64.encode('ascii')`,
two padding characters appended, base64-decoded, unpickled; any failure is
re-raised as `RuntimeError("Error deserializing model: ...")`. -/
def deserializeDomainModel (s : String) : Except PyExc DomainModel :=
  if s.data.all (fun c => c.toNat < 128) then
    match b64decodeLenient (s.data ++ ['=', '=']) with
    | none => .error (.runtimeError "Error deserializing model: Invalid base64-encoded string")
    | some bytes =>
      match pickleLoads bytes with
      | some m => .ok m
      | none => .error (.runtimeError "Error deserializing model: invalid load key")
  else
    .error (.runtimeError "Error deserializing model: ascii codec cannot encode character")

/-! ### Multiplicity parser (`utils.py`) -/

/-- Python `s.split("..")` on the character list of `s` (the only separator
the server splits on): non-overlapping left-to-right occurrences of `".."`
delimit the parts, empty parts included. -/
def pySplitDotDot : List Char → List (List Char)
  | [] => [[]]
  | '.' :: '.' :: rest => [] :: pySplitDotDot rest
  | c :: rest =>
    match pySplitDotDot rest with
    | h :: t => (c :: h) :: t
    | [] => [[c]]

/-- Digits to the natural they denote. -/
def digitsToNat (l : List Char) : Nat :=
  l.foldl (fun a c => a * 10 + (c.toNat - '0'.toNat)) 0

/-- Models Python `int(s)` on a character list: surrounding blanks stripped,
an optional sign, then decimal digits; anything else raises `ValueError`. -/
def pyIntChars (l : List Char) : Except PyExc Int :=
  let t := ((l.dropWhile fun c => c = ' ').reverse.dropWhile fun c => c = ' ').reverse
  let signAndDigits : Int × List Char :=
    match t with
    | '-' :: r => (-1, r)
    | '+' :: r => (1, r)
    | r => (1, r)
  if signAndDigits.2 ≠ [] ∧ signAndDigits.2.all Char.isDigit then
    .ok (signAndDigits.1 * (digitsToNat signAndDigits.2 : Int))
  else
    .error (.valueError ("invalid literal for int() with base 10: \x27" ++ String.mk l ++ "\x27"))

/-- `multiplicity_from_string` (`utils.py`): split on `".."`; anything but
exactly two parts raises `ValueError`; the first bound goes through `int`;
the second stays `"*"` or goes through `int`. -/
def multiplicityFromString (s : String) : Except PyExc Multiplicity :=
  match pySplitDotDot s.data with
  | [a, b] => do
    let mn ← pyIntChars a
    if b = ['*'] then
      return { min := mn, max := .star }
    else do
      let mx ← pyIntChars b
      return { min := mn, max := .num mx }
  | _ =>
    .error (.valueError ("Multiplicity string \x27" ++ s ++ "\x27 must have min and max values"))

/-! ### Mutation helpers (`creation.py`, `delete.py`)

Each `base_*` helper returns the post-call state of the domain-model object
together with the string the Python function returned, if it returned a
string rather than the model (`OpOut`).  Library calls that can raise go
through a `Lib` record so that the error conversion can be proved for every
possible library behavior; `stdLib` is the behavior of the BESSER library
as documented and as relied upon by this repository. -/

/-- Result of one mutation helper: the model object's state after the call,
and `some s` exactly when the Python function returned the string `s`
instead of the model. -/
structure OpOut where
  model : DomainModel
  err : Option String
deriving DecidableEq, Repr

/-- The external library calls the mutation helpers make, as oracles that
may raise. -/
structure Lib where
  /-- `DomainModel.add_type(t)` -/
  addType : DomainModel → MType → Except PyExc DomainModel
  /-- `Class.add_method(m)` on the owner object -/
  addMethod : MClass → MMethod → Except PyExc MClass
  /-- `Class.add_attribute(p)` on the owner object -/
  addAttribute : MClass → Property → Except PyExc MClass
  /-- `DomainModel.add_association(a)` -/
  addAssociation : DomainModel → Association → Except PyExc DomainModel
  /-- `DomainModel.add_generalization(g)` -/
  addGeneralization : DomainModel → Generalization → Except PyExc DomainModel
  /-- `Enumeration.add_literal(l)` on the owner object -/
  addLiteral : MType → String → Except PyExc MType
  /-- `domain_model.type.remove(t)` as written in `delete.py` -/
  typeRemove : DomainModel → MType → Except PyExc DomainModel

/-- The documented behavior of the BESSER library calls: `add_type`
validates name uniqueness and raises `ValueError` on a clash, the other
`add_*` calls insert the fresh object, `add_literal` rejects duplicate
literals, and `domain_model.type` raises `AttributeError` because the
attribute is spelled `types` (every other call site of this repository uses
`domain_model.types`). -/
def stdLib : Lib where
  addType := fun m t =>
    if (m.types.map MType.name).contains t.name then
      .error (.valueError ("A type with the name \x27" ++ t.name ++ "\x27 already exists in the model"))
    else
      .ok { m with types := m.types ++ [t] }
  addMethod := fun c mm => .ok { c with methods := c.methods ++ [mm] }
  addAttribute := fun c p => .ok { c with attributes := c.attributes ++ [p] }
  addAssociation := fun m a => .ok { m with associations := m.associations ++ [a] }
  addGeneralization := fun m g => .ok { m with generalizations := m.generalizations ++ [g] }
  addLiteral := fun t lit =>
    match t with
    | .enum n lits =>
      if lits.contains lit then
        .error (.valueError ("Literal \x27" ++ lit ++ "\x27 already exists"))
      else
        .ok (.enum n (lits ++ [lit]))
    | _ => .error (.attributeError "object has no attribute \x27add_literal\x27")
  typeRemove := fun _ _ =>
    .error (.attributeError "\x27DomainModel\x27 object has no attribute \x27type\x27")

/-- `'NoneType' object has no attribute '<attr>'`: the `AttributeError`
message Python produces when an attribute is read off `None`. -/
def noneAttrMsg (attr : String) : String :=
  "\x27NoneType\x27 object has no attribute \x27" ++ attr ++ "\x27"

/-- `base_add_class` (`creation.py`): construct the class, reject a
duplicate class name, then `add_type` with the `types.add` fallback on
`ValueError`. -/
def baseAddClass (lib : Lib) (m : DomainModel) (name : String)
    (attributes : List Property) (methods : List MMethod)
    (isAbstract isReadOnly : Bool) : OpOut :=
  let newClass : MClass :=
    { name := name, attributes := attributes, methods := methods,
      isAbstract := isAbstract, isReadOnly := isReadOnly }
  let existingClassNames := (getClasses m).map MClass.name
  if name ∈ existingClassNames then
    { model := m,
      err := some ("Error adding class \x27" ++ name ++ "\x27: A class with name \x27" ++ name ++ "\x27 already exists in the model") }
  else
    match lib.addType m (.cls newClass) with
    | .ok m2 => { model := m2, err := none }
    | .error e =>
      if e.isValueError then
        -- inner `except ValueError`: direct addition via `domain_model.types.add`
        { model := typesAdd m (.cls newClass), err := none }
      else
        { model := m, err := some ("Error processing domain model: " ++ e.pyStr) }

/-- `base_add_method_to_class` (`creation.py`).  When `class_name` names no
type, `owner.methods` is an attribute read off `None` and the resulting
`AttributeError` is caught by the bare `except Exception`.  Note that the
source resolves every parameter type by looking up `type_name` (not the
parameter's own type name). -/
def baseAddMethodToClass (lib : Lib) (m : DomainModel)
    (name className visibility : String) (isAbstract : Bool)
    (parameters : List (String × String)) (typeName code : String) : OpOut :=
  match getTypeByName m className with
  | none =>
    { model := m, err := some ("Error processing domain model: " ++ noneAttrMsg "methods") }
  | some (.cls c) =>
    let existingMethodNames := c.methods.map MMethod.name
    let methodType := getTypeByName m typeName
    if name ∈ existingMethodNames then
      { model := m,
        err := some ("Error adding method \x27" ++ name ++ "\x27: A method with name \x27" ++ name ++ "\x27 already exists in the class \x27" ++ className ++ "\x27") }
    else
      let parameterObjects : List Param :=
        parameters.map fun pr =>
          { name := pr.1, typeName := (getTypeByName m typeName).map MType.name }
      let newMethod : MMethod :=
        { name := name, visibility := visibility, isAbstract := isAbstract,
          params := parameterObjects, retTypeName := methodType.map MType.name,
          code := code }
      match lib.addMethod c newMethod with
      | .ok c2 =>
        { model := { m with types := updateTypeNamed className (fun _ => .cls c2) m.types },
          err := none }
      | .error e =>
        if e.isValueError then
          { model := m,
            err := some ("Error adding method \x27" ++ name ++ "\x27 to class \x27" ++ className ++ "\x27: " ++ e.pyStr) }
        else
          { model := m, err := some ("Error processing domain model: " ++ e.pyStr) }
  | some _ =>
    -- enumerations and primitive types have no `methods` attribute
    { model := m, err := some ("Error processing domain model: object has no attribute \x27methods\x27") }

/-- `base_add_attribute_to_class` (`creation.py`).  The `type_name`
parameter defaults to Python `None`, in which case the type lookup yields
`None`; a `ValueError` escaping `multiplicity_from_string` is caught by the
outer `except ValueError`. -/
def baseAddAttributeToClass (lib : Lib) (m : DomainModel)
    (name className : String) (typeNameArg : Option String)
    (multiplicityStr : String) (visibility : String)
    (isComposite isNavigable isId isReadOnly : Bool) : OpOut :=
  match getTypeByName m className with
  | none =>
    { model := m, err := some ("Error processing domain model: " ++ noneAttrMsg "attributes") }
  | some (.cls c) =>
    let existingAttributeNames := c.attributes.map Property.name
    let propertyType :=
      match typeNameArg with
      | some tn => getTypeByName m tn
      | none => none
    if name ∈ existingAttributeNames then
      { model := m,
        err := some ("Error adding attribute \x27" ++ name ++ "\x27: An attribute with name \x27" ++ name ++ "\x27 already exists in the class \x27" ++ className ++ "\x27") }
    else
      match multiplicityFromString multiplicityStr with
      | .error e =>
        if e.isValueError then
          { model := m,
            err := some ("Error adding attribute \x27" ++ name ++ "\x27 to class \x27" ++ className ++ "\x27: " ++ e.pyStr) }
        else
          { model := m, err := some ("Error processing domain model: " ++ e.pyStr) }
      | .ok mult =>
        let newProperty : Property :=
          { name := name, typeName := propertyType.map MType.name,
            mult := .obj mult, visibility := visibility,
            isComposite := isComposite, isNavigable := isNavigable,
            isId := isId, isReadOnly := isReadOnly }
        match lib.addAttribute c newProperty with
        | .ok c2 =>
          { model := { m with types := updateTypeNamed className (fun _ => .cls c2) m.types },
            err := none }
        | .error e =>
          if e.isValueError then
            { model := m,
              err := some ("Error adding attribute \x27" ++ name ++ "\x27 to class \x27" ++ className ++ "\x27: " ++ e.pyStr) }
          else
            { model := m, err := some ("Error processing domain model: " ++ e.pyStr) }
  | some _ =>
    { model := m, err := some ("Error processing domain model: object has no attribute \x27attributes\x27") }

/-- `base_add_binary_association` (`creation.py`): reject a duplicate
association name, parse both multiplicities (each with its own
`except ValueError` returning an error string), build the two `Property`
ends, then `add_association`. -/
def baseAddBinaryAssociation (lib : Lib) (m : DomainModel)
    (name fromClass toClass roleFrom roleTo : String)
    (multiplicityFrom multiplicityTo : String)
    (isBidirectional isComposition : Bool) : OpOut :=
  let fromEndClass := getTypeByName m fromClass
  let toEndClass := getTypeByName m toClass
  let existingAssociationNames := m.associations.map Association.name
  if name ∈ existingAssociationNames then
    { model := m,
      err := some ("Error adding association \x27" ++ name ++ "\x27: An association with name \x27" ++ name ++ "\x27 already exists in the model") }
  else
    match multiplicityFromString multiplicityTo with
    | .error e =>
      if e.isValueError then
        { model := m,
          err := some ("Error adding association \x27" ++ name ++ "\x27 to model: " ++ e.pyStr) }
      else
        { model := m, err := some ("Error processing domain model: " ++ e.pyStr) }
    | .ok multiplicityToObj =>
      match multiplicityFromString multiplicityFrom with
      | .error e =>
        if e.isValueError then
          { model := m,
            err := some ("Error adding association \x27" ++ name ++ "\x27 to model: " ++ e.pyStr) }
        else
          { model := m, err := some ("Error processing domain model: " ++ e.pyStr) }
      | .ok multiplicityFromObj =>
        let fromEnd : Property :=
          { name := roleTo, typeName := toEndClass.map MType.name,
            mult := .obj multiplicityToObj, visibility := "public",
            isComposite := isComposition, isNavigable := true,
            isId := false, isReadOnly := false }
        let toEnd : Property :=
          { name := roleFrom, typeName := fromEndClass.map MType.name,
            mult := .obj multiplicityFromObj, visibility := "public",
            isComposite := false, isNavigable := isBidirectional,
            isId := false, isReadOnly := false }
        let association : Association := { name := name, ends := [fromEnd, toEnd] }
        match lib.addAssociation m association with
        | .ok m2 => { model := m2, err := none }
        | .error e =>
          if e.isValueError then
            { model := m,
              err := some ("Error adding association \x27" ++ name ++ "\x27 to model: " ++ e.pyStr) }
          else
            { model := m, err := some ("Error processing domain model: " ++ e.pyStr) }

/-- `base_add_association_class` (`creation.py`): find the named
association (first match, loop with break), reject when absent, then build
the `AssociationClass` (a `Class` with no attributes) and `add_type` it. -/
def baseAddAssociationClass (lib : Lib) (m : DomainModel)
    (name associationName : String) : OpOut :=
  match m.associations.find? (fun a => associationName == a.name) with
  | none =>
    { model := m,
      err := some ("Error adding association class \x27" ++ name ++ "\x27: Association \x27" ++ associationName ++ "\x27 does not exists in the model. Create the \x27" ++ associationName ++ "\x27 association before the association class") }
  | some _ =>
    let associationclass : MClass :=
      { name := name, attributes := [], methods := [],
        isAbstract := false, isReadOnly := false }
    match lib.addType m (.cls associationclass) with
    | .ok m2 => { model := m2, err := none }
    | .error e =>
      if e.isValueError then
        { model := m,
          err := some ("Error adding association class \x27" ++ name ++ "\x27 to model: " ++ e.pyStr) }
      else
        { model := m, err := some ("Error processing domain model: " ++ e.pyStr) }

/-- `base_add_enumeration` (`creation.py`): reject when any type already
has the name, then build the enumeration and `add_type` it. -/
def baseAddEnumeration (lib : Lib) (m : DomainModel)
    (name : String) (literals : List String) : OpOut :=
  if (getTypeByName m name).isSome then
    { model := m,
      err := some ("Error adding enumeration \x27" ++ name ++ "\x27: A type with name \x27" ++ name ++ "\x27 already exists in the model") }
  else
    match lib.addType m (.enum name literals) with
    | .ok m2 => { model := m2, err := none }
    | .error e =>
      if e.isValueError then
        { model := m,
          err := some ("Error adding enumeration \x27" ++ name ++ "\x27 to model: " ++ e.pyStr) }
      else
        { model := m, err := some ("Error processing domain model: " ++ e.pyStr) }

/-- `base_add_enumeration_literal` (`creation.py`): look the enumeration up
by name; when absent, `enum.add_literal` is a call on `None` and the
`AttributeError` is caught by `except Exception`. -/
def baseAddEnumerationLiteral (lib : Lib) (m : DomainModel)
    (name enumerationName : String) : OpOut :=
  match getTypeByName m enumerationName with
  | none =>
    { model := m, err := some ("Error processing domain model: " ++ noneAttrMsg "add_literal") }
  | some e0 =>
    match lib.addLiteral e0 name with
    | .ok t2 =>
      { model := { m with types := updateTypeNamed enumerationName (fun _ => t2) m.types },
        err := none }
    | .error e =>
      if e.isValueError then
        { model := m,
          err := some ("Error adding literal \x27" ++ name ++ "\x27 to enumeration \x27" ++ enumerationName ++ "\x27: " ++ e.pyStr) }
      else
        { model := m, err := some ("Error processing domain model: " ++ e.pyStr) }

/-- `base_add_generalization` (`creation.py`): look both classes up (a
failed lookup just stores `None` in the `Generalization`), then
`add_generalization`.  The `except ValueError` message of the source says
"association". -/
def baseAddGeneralization (lib : Lib) (m : DomainModel)
    (generalClassName specificClassName : String) : OpOut :=
  let generalization : Generalization :=
    { general := generalClassName, specific := specificClassName }
  match lib.addGeneralization m generalization with
  | .ok m2 => { model := m2, err := none }
  | .error e =>
    if e.isValueError then
      { model := m,
        err := some ("Error adding association \x27" ++ generalClassName ++ "\x27 <|-- \x27" ++ specificClassName ++ "\x27 to model: " ++ e.pyStr) }
    else
      { model := m, err := some ("Error processing domain model: " ++ e.pyStr) }

/-- `base_add_ocl_constraint` (`creation.py`): look the context type up
(`None` is stored as-is), build the constraint, and union it into
`domain_model.constraints`; no library call on this path can raise. -/
def baseAddOclConstraint (m : DomainModel)
    (name className expression : String) : OpOut :=
  let context := getTypeByName m className
  let constraint : Constraint :=
    { name := name, contextName := context.map MType.name,
      expression := expression, language := "OCL" }
  { model := { m with constraints := m.constraints ++ [constraint] }, err := none }

/-- `base_delete_class` (`delete.py`): look the type up by name, return a
"No class ... exists" string when absent, otherwise remove it via the
`domain_model.type` attribute (spelled without the `s` in the source). -/
def baseDeleteClass (lib : Lib) (m : DomainModel) (name : String) : OpOut :=
  match getTypeByName m name with
  | none =>
    { model := m,
      err := some ("Error removing class \x27" ++ name ++ "\x27: No class with name \x27" ++ name ++ "\x27 exists in the model") }
  | some t =>
    match lib.typeRemove m t with
    | .ok m2 => { model := m2, err := none }
    | .error e =>
      if e.isValueError then
        { model := m, err := some ("Error removing class \x27" ++ name ++ "\x27: " ++ e.pyStr) }
      else
        { model := m, err := some ("Error processing domain model: " ++ e.pyStr) }

/-- `base_delete_method_from_class` (`delete.py`): find the method on the
owner (first match, loop with break); absent owner means an attribute read
off `None`. -/
def baseDeleteMethodFromClass (m : DomainModel) (name className : String) : OpOut :=
  match getTypeByName m className with
  | none =>
    { model := m, err := some ("Error processing domain model: " ++ noneAttrMsg "methods") }
  | some (.cls c) =>
    match c.methods.find? (fun mm => mm.name == name) with
    | none =>
      { model := m,
        err := some ("Error removing method \x27" ++ name ++ "\x27: No method with name \x27" ++ name ++ "\x27 exists in \x27" ++ className ++ "\x27") }
    | some mm =>
      let newTypes := updateTypeNamed className (fun _ => .cls { c with methods := c.methods.erase mm }) m.types
      { model := { m with types := newTypes }, err := none }
  | some _ =>
    { model := m, err := some ("Error processing domain model: object has no attribute \x27methods\x27") }

/-- `base_delete_attribute_from_class` (`delete.py`): find the attribute on
the owner (first match, loop with break); absent owner means an attribute
read off `None`. -/
def baseDeleteAttributeFromClass (m : DomainModel) (name className : String) : OpOut :=
  match getTypeByName m className with
  | none =>
    { model := m, err := some ("Error processing domain model: " ++ noneAttrMsg "attributes") }
  | some (.cls c) =>
    match c.attributes.find? (fun a => a.name == name) with
    | none =>
      { model := m,
        err := some ("Error removing attribute \x27" ++ name ++ "\x27: No attribute with name \x27" ++ name ++ "\x27 exists in \x27" ++ className ++ "\x27") }
    | some a =>
      let newTypes := updateTypeNamed className (fun _ => .cls { c with attributes := c.attributes.erase a }) m.types
      { model := { m with types := newTypes }, err := none }
  | some _ =>
    { model := m, err := some ("Error processing domain model: object has no attribute \x27attributes\x27") }

/-- `base_delete_binary_association` (`delete.py`): the search loop has no
break, so the last association with the name is the one removed; when none
matches, a "No association ... exists" string is returned. -/
def baseDeleteBinaryAssociation (m : DomainModel) (name : String) : OpOut :=
  match (m.associations.filter fun a => a.name == name).getLast? with
  | none =>
    { model := m,
      err := some ("Error removing association \x27" ++ name ++ "\x27: No association with name \x27" ++ name ++ "\x27 exists in model") }
  | some a =>
    { model := { m with associations := m.associations.erase a }, err := none }

/-- `base_delete_association_class` (`delete.py`): same shape as
`base_delete_class`, including the `domain_model.type` spelling. -/
def baseDeleteAssociationClass (lib : Lib) (m : DomainModel) (name : String) : OpOut :=
  match getTypeByName m name with
  | none =>
    { model := m,
      err := some ("Error removing association class \x27" ++ name ++ "\x27: No association class with name \x27" ++ name ++ "\x27 exists in the model") }
  | some t =>
    match lib.typeRemove m t with
    | .ok m2 => { model := m2, err := none }
    | .error e =>
      if e.isValueError then
        { model := m, err := some ("Error removing association class \x27" ++ name ++ "\x27: " ++ e.pyStr) }
      else
        { model := m, err := some ("Error processing domain model: " ++ e.pyStr) }

/-- `base_delete_enumeration` (`delete.py`): same shape as
`base_delete_class`, including the `domain_model.type` spelling. -/
def baseDeleteEnumeration (lib : Lib) (m : DomainModel) (name : String) : OpOut :=
  match getTypeByName m name with
  | none =>
    { model := m,
      err := some ("Error removing enumeration \x27" ++ name ++ "\x27: No enumeration with name \x27" ++ name ++ "\x27 exists in the model") }
  | some t =>
    match lib.typeRemove m t with
    | .ok m2 => { model := m2, err := none }
    | .error e =>
      if e.isValueError then
        { model := m, err := some ("Error removing enumeration \x27" ++ name ++ "\x27: " ++ e.pyStr) }
      else
        { model := m, err := some ("Error processing domain model: " ++ e.pyStr) }

/-- `base_delete_enumeration_literal` (`delete.py`): find the literal on
the enumeration (first match, loop with break); absent enumeration means an
attribute read off `None`. -/
def baseDeleteEnumerationLiteral (m : DomainModel) (name enumerationName : String) : OpOut :=
  match getTypeByName m enumerationName with
  | none =>
    { model := m, err := some ("Error processing domain model: " ++ noneAttrMsg "literals") }
  | some (.enum en lits) =>
    match lits.find? (fun l => l == name) with
    | none =>
      { model := m,
        err := some ("Error removing literal \x27" ++ name ++ "\x27: No literal with name \x27" ++ name ++ "\x27 exists in \x27" ++ enumerationName ++ "\x27") }
    | some lit =>
      let newTypes := updateTypeNamed enumerationName (fun _ => .enum en (lits.erase lit)) m.types
      { model := { m with types := newTypes }, err := none }
  | some _ =>
    { model := m, err := some ("Error processing domain model: object has no attribute \x27literals\x27") }

/-- `base_delete_generalization` (`delete.py`): look both classes up, then
scan all generalizations (no break: last match wins) comparing ends by
object, which never matches when a lookup returned `None`; when nothing
matches, the source's message (with its spelling and trailing quote
verbatim) is returned.  The class-side back-reference lists the source also
updates are not represented in this embedding. -/
def baseDeleteGeneralization (m : DomainModel)
    (generalClassName specificClassName : String) : OpOut :=
  let generalClass := getTypeByName m generalClassName
  let specificClass := getTypeByName m specificClassName
  let found := (m.generalizations.filter fun g =>
    generalClass.isSome && specificClass.isSome &&
      g.general == generalClassName && g.specific == specificClassName).getLast?
  match found with
  | none =>
    { model := m,
      err := some ("Error removing genralization \x27" ++ generalClassName ++ "\x27 <|-- \x27" ++ specificClassName ++ "\x27: No generalization between \x27" ++ generalClassName ++ "\x27 and \x27" ++ specificClassName ++ "\x27 exists in model\x27") }
  | some g =>
    { model := { m with generalizations := m.generalizations.erase g }, err := none }

/-- `base_delete_ocl_constraint` (`delete.py`): rebuild the constraint set
keeping every constraint whose `name` *is not* (object identity, not
equality) the passed name, and return the model — there is no lookup and no
"No ... exists" message on this path.  `ident` models Python string
identity: it may only identify equal strings. -/
def baseDeleteOclConstraint (ident : String → String → Bool)
    (m : DomainModel) (name : String) : OpOut :=
  { model := { m with constraints := m.constraints.filter fun c => !(ident c.name name) },
    err := none }

/-! ### Base64 tool wrappers and the generator facade -/

/-- The tool `add_class_base64` (`creation.py`): deserialize (failures
propagate), run `base_add_class`, return either its error string or the
reserialized model. -/
def addClassBase64 (lib : Lib) (domainModelBase64 name : String)
    (attributes : List Property) (methods : List MMethod)
    (isAbstract isReadOnly : Bool) : Except PyExc String := do
  let m ← deserializeDomainModel domainModelBase64
  let r := baseAddClass lib m name attributes methods isAbstract isReadOnly
  match r.err with
  | some msg => return msg
  | none => return serializeDomainModel r.model

/-- The tool `delete_class_base64` (`delete.py`). -/
def deleteClassBase64 (lib : Lib) (domainModelBase64 name : String) :
    Except PyExc String := do
  let m ← deserializeDomainModel domainModelBase64
  let r := baseDeleteClass lib m name
  match r.err with
  | some msg => return msg
  | none => return serializeDomainModel r.model

/-- The external SQL generator and the file system as `base_sql_generation`
and its caller touch them: `generate` is
`SQLGenerator(model, path, dialect).generate()`, and `tablesFile` is the
content of `./tables_<dialect>` after generation when that file exists. -/
structure SqlGenEnv where
  generate : DomainModel → String → Except PyExc Unit
  tablesFile : Option String

/-- The body of the per-class loop of `base_sql_generation`
(`generators.py`): a class with an empty attribute set gains the `id`
property `Property(name="id", type=int_type, multiplicity="1", is_id=True)`
— but only when a type named `int` is found in `domain_model.types`; the
inner `except ... pass` of the source is unreachable here because the
construction cannot raise. -/
def sqlAddId (m : DomainModel) (c : MClass) : MClass :=
  if c.attributes.isEmpty then
    match m.types.find? (fun t => t.name == "int") with
    | some intType =>
      { c with attributes := c.attributes ++
          [{ name := "id", typeName := some intType.name, mult := .raw "1",
             visibility := "public", isComposite := false, isNavigable := true,
             isId := true, isReadOnly := false }] }
    | none => c
  else c

/-- The whole `for cls in classes` loop of `base_sql_generation`: every
class of the model goes through `sqlAddId` (in place). -/
def sqlEnsureIds (m : DomainModel) : DomainModel :=
  { m with types := m.types.map fun t =>
    match t with
    | MType.cls c => MType.cls (sqlAddId m c)
    | t => t }

/-- `base_sql_generation` (`generators.py`): the attribute-ensuring loop,
then the external generator, its exceptions becoming an "Error generating
SQL ..." string.  Returns the post-call model state next to the returned
value (`None` on success). -/
def baseSqlGeneration (env : SqlGenEnv) (m : DomainModel)
    (sqlDialect : String) : DomainModel × Option String :=
  let m2 := sqlEnsureIds m
  match env.generate m2 sqlDialect with
  | .ok _ => (m2, none)
  | .error e => (m2, some ("Error generating SQL from domain model: " ++ e.pyStr))

/-- The tool `sql_generation_base64` (`generators.py`): deserialize
(failures propagate), run `base_sql_generation`; a non-`None` result is
returned as-is; otherwise the generated file is read back, and if that
fails the fallback diagnostic about the model's classes is synthesized. -/
def sqlGenerationBase64 (env : SqlGenEnv) (domainModelBase64 sqlDialect : String) :
    Except PyExc String := do
  let m ← deserializeDomainModel domainModelBase64
  let (m2, out) := baseSqlGeneration env m sqlDialect
  match out with
  | some msg => return msg
  | none =>
    match env.tablesFile with
    | some content => return content
    | none =>
      let classes := getClasses m2
      if classes.isEmpty then
        return "No SQL generated. The domain model contains no classes."
      else
        return ("No SQL generated. The domain model contains " ++
          toString classes.length ++ " class(es): " ++
          String.intercalate ", "
            (classes.map fun c =>
              c.name ++ " (" ++ toString c.attributes.length ++ " attributes)") ++
          ". The SQL generator may require additional configuration or the classes may not meet SQL generation requirements.")

/-- A few shared sample values used by concrete witnesses below. -/
def emptyModel : DomainModel :=
  { name := "M", types := [], associations := [], generalizations := [], constraints := [] }

/-- A class named `A` with no attributes and no methods. -/
def classA : MClass :=
  { name := "A", attributes := [], methods := [], isAbstract := false, isReadOnly := false }

/-- A model containing only the class `A`. -/
def modelWithA : DomainModel :=
  { emptyModel with types := [.cls classA] }

/-- A model containing the `int` primitive and the attribute-less class `A`. -/
def modelWithIntAndA : DomainModel :=
  { emptyModel with types := [.primitive "int", .cls classA] }

/-- A model containing one OCL constraint named `c1`. -/
def modelWithConstraint : DomainModel :=
  { emptyModel with
    constraints := [{ name := "c1", contextName := none, expression := "true", language := "OCL" }] }

/-- A generator environment in which the external SQL generator succeeds but
produces no output file. -/
def benignSqlEnv : SqlGenEnv :=
  { generate := fun _ _ => .ok (), tablesFile := none }

/-- A string-identity oracle under which no two strings are the same object. -/
def identNever : String → String → Bool := fun _ _ => false

/-- Soundness of a Python string-identity oracle: `a is b` implies `a == b`. -/
def IdentSound (ident : String → String → Bool) : Prop :=
  ∀ a b, ident a b = true → a = b

/-- The contract of `DomainModel.add_type` this repository relies on: the
call either inserts the type exactly as `types.add` would, or raises a
`ValueError` (its duplicate-name validation, which `base_add_class` works
around with the `types.add` fallback). -/
def AddTypeSpec (lib : Lib) : Prop :=
  ∀ m t, lib.addType m t = .ok (typesAdd m t) ∨ ∃ msg, lib.addType m t = .error (.valueError msg)

/-! ### Codec roundtrip lemmas -/

theorem decNatAux_append (ds r : List Nat) (h : ∀ d ∈ ds, d ≠ 255) :
    decNatAux (ds ++ 255 :: r) = some (ds, r) := by
  induction ds with
  | nil => simp [decNatAux]
  | cons d t ih =>
    have hd : d ≠ 255 := h d (by simp)
    simp [decNatAux, hd, ih fun x hx => h x (by simp [hx])]

theorem decNat_encNat (n : Nat) (r : List Nat) : decNat (encNat n ++ r) = some (n, r) := by
  have hlt : ∀ d ∈ Nat.digits 255 n, d ≠ 255 := fun d hd =>
    Nat.ne_of_lt (Nat.digits_lt_base (by norm_num) hd)
  simp [decNat, encNat, List.append_assoc, decNatAux_append _ _ hlt, Nat.ofDigits_digits]

theorem decInt_encInt (i : Int) (r : List Nat) : decInt (encInt i ++ r) = some (i, r) := by
  by_cases hi : i < 0
  · simp [encInt, hi, decInt, decNat_encNat, Int.natCast_natAbs, abs_of_neg hi]
  · simp [encInt, hi, decInt, decNat_encNat, Int.natCast_natAbs,
      abs_of_nonneg (not_lt.mp hi)]

theorem decBool_encBool (b : Bool) (r : List Nat) : decBool (encBool b ++ r) = some (b, r) := by
  cases b <;> simp [encBool, decBool]

theorem decChar_encChar (c : Char) (r : List Nat) : decChar (encChar c ++ r) = some (c, r) := by
  simp [decChar, encChar, decNat_encNat, Char.ofNat_toNat]

theorem decListN_append {α : Type} (dec : List Nat → Option (α × List Nat))
    (enc : α → List Nat) (henc : ∀ a r, dec (enc a ++ r) = some (a, r))
    (xs : List α) (r : List Nat) :
    decListN dec xs.length ((xs.map enc).flatten ++ r) = some (xs, r) := by
  induction xs with
  | nil => simp [decListN]
  | cons a t ih => simp [decListN, List.append_assoc, henc, ih]

theorem decList_encList {α : Type} (dec : List Nat → Option (α × List Nat))
    (enc : α → List Nat) (henc : ∀ a r, dec (enc a ++ r) = some (a, r))
    (xs : List α) (r : List Nat) :
    decList dec (encList enc xs ++ r) = some (xs, r) := by
  simp [decList, encList, List.append_assoc, decNat_encNat,
    decListN_append dec enc henc]

theorem decString_encString (s : String) (r : List Nat) :
    decString (encString s ++ r) = some (s, r) := by
  simp [decString, encString, decList_encList decChar encChar decChar_encChar]

theorem decOption_encOption {α : Type} (dec : List Nat → Option (α × List Nat))
    (enc : α → List Nat) (henc : ∀ a r, dec (enc a ++ r) = some (a, r))
    (x : Option α) (r : List Nat) :
    decOption dec (encOption enc x ++ r) = some (x, r) := by
  cases x <;> simp [encOption, decOption, henc]

theorem decMultMax_encMultMax (m : MultMax) (r : List Nat) :
    decMultMax (encMultMax m ++ r) = some (m, r) := by
  cases m <;> simp [encMultMax, decMultMax, decInt_encInt]

theorem decMultiplicity_encMultiplicity (m : Multiplicity) (r : List Nat) :
    decMultiplicity (encMultiplicity m ++ r) = some (m, r) := by
  simp [decMultiplicity, encMultiplicity, List.append_assoc, decInt_encInt,
    decMultMax_encMultMax]

theorem decPyMult_encPyMult (m : PyMult) (r : List Nat) :
    decPyMult (encPyMult m ++ r) = some (m, r) := by
  cases m <;> simp [encPyMult, decPyMult, decMultiplicity_encMultiplicity,
    decString_encString]

theorem decProperty_encProperty (p : Property) (r : List Nat) :
    decProperty (encProperty p ++ r) = some (p, r) := by
  simp [decProperty, encProperty, List.append_assoc, decString_encString,
    decOption_encOption decString encString decString_encString,
    decPyMult_encPyMult, decBool_encBool]

theorem decParam_encParam (p : Param) (r : List Nat) :
    decParam (encParam p ++ r) = some (p, r) := by
  simp [decParam, encParam, List.append_assoc, decString_encString,
    decOption_encOption decString encString decString_encString]

theorem decMMethod_encMMethod (m : MMethod) (r : List Nat) :
    decMMethod (encMMethod m ++ r) = some (m, r) := by
  simp [decMMethod, encMMethod, List.append_assoc, decString_encString,
    decBool_encBool, decList_encList decParam encParam decParam_encParam,
    decOption_encOption decString encString decString_encString]

theorem decMClass_encMClass (c : MClass) (r : List Nat) :
    decMClass (encMClass c ++ r) = some (c, r) := by
  simp [decMClass, encMClass, List.append_assoc, decString_encString,
    decList_encList decProperty encProperty decProperty_encProperty,
    decList_encList decMMethod encMMethod decMMethod_encMMethod,
    decBool_encBool]

theorem decMType_encMType (t : MType) (r : List Nat) :
    decMType (encMType t ++ r) = some (t, r) := by
  cases t <;> simp [encMType, decMType, List.append_assoc, decMClass_encMClass,
    decString_encString, decList_encList decString encString decString_encString]

theorem decAssociation_encAssociation (a : Association) (r : List Nat) :
    decAssociation (encAssociation a ++ r) = some (a, r) := by
  simp [decAssociation, encAssociation, List.append_assoc, decString_encString,
    decList_encList decProperty encProperty decProperty_encProperty]

theorem decGeneralization_encGeneralization (g : Generalization) (r : List Nat) :
    decGeneralization (encGeneralization g ++ r) = some (g, r) := by
  simp [decGeneralization, encGeneralization, List.append_assoc, decString_encString]

theorem decConstraint_encConstraint (c : Constraint) (r : List Nat) :
    decConstraint (encConstraint c ++ r) = some (c, r) := by
  simp [decConstraint, encConstraint, List.append_assoc, decString_encString,
    decOption_encOption decString encString decString_encString]

theorem pickleLoads_pickleDumps (m : DomainModel) (r : List Nat) :
    pickleLoads (pickleDumps m ++ r) = some m := by
  simp [pickleLoads, pickleDumps, List.append_assoc, decString_encString,
    decList_encList decMType encMType decMType_encMType,
    decList_encList decAssociation encAssociation decAssociation_encAssociation,
    decList_encList decGeneralization encGeneralization decGeneralization_encGeneralization,
    decList_encList decConstraint encConstraint decConstraint_encConstraint]

/-! ### Every pickled byte is below 256 -/

theorem lt256_append {l1 l2 : List Nat} (h1 : ∀ b ∈ l1, b < 256)
    (h2 : ∀ b ∈ l2, b < 256) : ∀ b ∈ l1 ++ l2, b < 256 := by
  intro b hb
  rcases List.mem_append.mp hb with h | h
  · exact h1 b h
  · exact h2 b h

theorem encNat_lt (n : Nat) : ∀ b ∈ encNat n, b < 256 := by
  intro b hb
  rcases List.mem_append.mp hb with h | h
  · exact (Nat.digits_lt_base (by norm_num) h).trans (by norm_num)
  · simp at h; omega

theorem encInt_lt (i : Int) : ∀ b ∈ encInt i, b < 256 := by
  intro b hb
  rcases List.mem_cons.mp hb with h | h
  · subst h; split <;> norm_num
  · exact encNat_lt _ b h

theorem encBool_lt (x : Bool) : ∀ b ∈ encBool x, b < 256 := by
  intro b hb
  simp [encBool] at hb
  subst hb; split <;> norm_num

theorem encChar_lt (c : Char) : ∀ b ∈ encChar c, b < 256 :=
  encNat_lt _

theorem encList_lt {α : Type} (enc : α → List Nat)
    (henc : ∀ a, ∀ b ∈ enc a, b < 256) (xs : List α) :
    ∀ b ∈ encList enc xs, b < 256 := by
  refine lt256_append (encNat_lt _) ?_
  intro b hb
  rcases List.mem_flatten.mp hb with ⟨l, hl, hbl⟩
  rcases List.mem_map.mp hl with ⟨a, _, rfl⟩
  exact henc a b hbl

theorem encString_lt (s : String) : ∀ b ∈ encString s, b < 256 :=
  encList_lt encChar encChar_lt s.data

theorem encOption_lt {α : Type} (enc : α → List Nat)
    (henc : ∀ a, ∀ b ∈ enc a, b < 256) (x : Option α) :
    ∀ b ∈ encOption enc x, b < 256 := by
  cases x with
  | none => intro b hb; simp [encOption] at hb; omega
  | some a =>
    intro b hb
    rcases List.mem_cons.mp hb with h | h
    · omega
    · exact henc a b h

theorem encMultMax_lt (m : MultMax) : ∀ b ∈ encMultMax m, b < 256 := by
  cases m with
  | num n =>
    intro b hb
    rcases List.mem_cons.mp hb with h | h
    · omega
    · exact encInt_lt _ b h
  | star => intro b hb; simp [encMultMax] at hb; omega

theorem encMultiplicity_lt (m : Multiplicity) : ∀ b ∈ encMultiplicity m, b < 256 :=
  lt256_append (encInt_lt _) (encMultMax_lt _)

theorem encPyMult_lt (m : PyMult) : ∀ b ∈ encPyMult m, b < 256 := by
  cases m with
  | obj x =>
    intro b hb
    rcases List.mem_cons.mp hb with h | h
    · omega
    · exact encMultiplicity_lt _ b h
  | raw s =>
    intro b hb
    rcases List.mem_cons.mp hb with h | h
    · omega
    · exact encString_lt _ b h

theorem encProperty_lt (p : Property) : ∀ b ∈ encProperty p, b < 256 := by
  refine lt256_append (lt256_append (lt256_append (lt256_append (lt256_append
    (lt256_append (lt256_append (encString_lt _)
      (encOption_lt encString encString_lt _)) (encPyMult_lt _))
        (encString_lt _)) (encBool_lt _)) (encBool_lt _)) (encBool_lt _))
          (encBool_lt _)

theorem encParam_lt (p : Param) : ∀ b ∈ encParam p, b < 256 :=
  lt256_append (encString_lt _) (encOption_lt encString encString_lt _)

theorem encMMethod_lt (m : MMethod) : ∀ b ∈ encMMethod m, b < 256 :=
  lt256_append (lt256_append (lt256_append (lt256_append (lt256_append
    (encString_lt _) (encString_lt _)) (encBool_lt _))
      (encList_lt encParam encParam_lt _))
        (encOption_lt encString encString_lt _)) (encString_lt _)

theorem encMClass_lt (c : MClass) : ∀ b ∈ encMClass c, b < 256 :=
  lt256_append (lt256_append (lt256_append (lt256_append (encString_lt _)
    (encList_lt encProperty encProperty_lt _))
      (encList_lt encMMethod encMMethod_lt _)) (encBool_lt _)) (encBool_lt _)

theorem encMType_lt (t : MType) : ∀ b ∈ encMType t, b < 256 := by
  cases t with
  | cls c =>
    intro b hb
    rcases List.mem_cons.mp hb with h | h
    · omega
    · exact encMClass_lt _ b h
  | enum n lits =>
    intro b hb
    rcases List.mem_cons.mp hb with h | h
    · omega
    · exact lt256_append (encString_lt _) (encList_lt encString encString_lt _) b h
  | primitive n =>
    intro b hb
    rcases List.mem_cons.mp hb with h | h
    · omega
    · exact encString_lt _ b h

theorem encAssociation_lt (a : Association) : ∀ b ∈ encAssociation a, b < 256 :=
  lt256_append (encString_lt _) (encList_lt encProperty encProperty_lt _)

theorem encGeneralization_lt (g : Generalization) : ∀ b ∈ encGeneralization g, b < 256 :=
  lt256_append (encString_lt _) (encString_lt _)

theorem encConstraint_lt (c : Constraint) : ∀ b ∈ encConstraint c, b < 256 :=
  lt256_append (lt256_append (lt256_append (encString_lt _)
    (encOption_lt encString encString_lt _)) (encString_lt _)) (encString_lt _)

theorem pickleDumps_lt (m : DomainModel) : ∀ b ∈ pickleDumps m, b < 256 :=
  lt256_append (lt256_append (lt256_append (lt256_append (encString_lt _)
    (encList_lt encMType encMType_lt _))
      (encList_lt encAssociation encAssociation_lt _))
        (encList_lt encGeneralization encGeneralization_lt _))
          (encList_lt encConstraint encConstraint_lt _)

/-! ### Base64 roundtrip -/

theorem b64Alphabet_length : b64Alphabet.length = 64 := by decide

theorem b64c_ne_pad (n : Nat) : b64c n ≠ '=' := by
  unfold b64c
  rcases Nat.lt_or_ge n 64 with h | h
  · interval_cases n <;> decide
  · rw [List.getD_eq_default]
    · decide
    · rw [b64Alphabet_length]; exact h

theorem b64c_toNat_lt (n : Nat) : (b64c n).toNat < 128 := by
  unfold b64c
  rcases Nat.lt_or_ge n 64 with h | h
  · interval_cases n <;> decide
  · rw [List.getD_eq_default]
    · decide
    · rw [b64Alphabet_length]; exact h

theorem decB64c_b64c : ∀ n, n < 64 → decB64c (b64c n) = some n := by decide

theorem takeWhile_append_of_all {α : Type} (p : α → Bool) (l r : List α)
    (h : ∀ x ∈ l, p x) : (l ++ r).takeWhile p = l ++ r.takeWhile p := by
  induction l with
  | nil => simp
  | cons a t ih => simp_all [List.takeWhile_cons]

theorem b64_roundtrip (bs : List Nat) (h : ∀ b ∈ bs, b < 256) :
    b64decodeLenient (b64encodeBytes bs ++ ['=', '=']) = some bs := by
  revert h
  induction bs using b64encodeBytes.induct with
  | case1 a b c rest ih =>
    intro h
    have ha : a < 256 := h a (by simp)
    have hb : b < 256 := h b (by simp)
    have hc : c < 256 := h c (by simp)
    have hrest := ih fun x hx => h x (by simp [hx])
    unfold b64decodeLenient at hrest ⊢
    rw [b64encodeBytes]
    rw [show b64c (a / 4) :: b64c (a % 4 * 16 + b / 16) ::
          b64c (b % 16 * 4 + c / 64) :: b64c (c % 64) :: b64encodeBytes rest ++ ['=', '='] =
        [b64c (a / 4), b64c (a % 4 * 16 + b / 16), b64c (b % 16 * 4 + c / 64), b64c (c % 64)] ++
          (b64encodeBytes rest ++ ['=', '=']) by simp]
    rw [takeWhile_append_of_all _ _ _ (by
      intro x hx
      simp only [List.mem_cons, List.mem_singleton] at hx
      rcases hx with rfl | rfl | rfl | rfl | h0
      · exact decide_eq_true (b64c_ne_pad _)
      · exact decide_eq_true (b64c_ne_pad _)
      · exact decide_eq_true (b64c_ne_pad _)
      · exact decide_eq_true (b64c_ne_pad _)
      · cases h0)]
    rw [List.filterMap_append]
    have d1 : decB64c (b64c (a / 4)) = some (a / 4) := decB64c_b64c _ (by omega)
    have d2 : decB64c (b64c (a % 4 * 16 + b / 16)) = some (a % 4 * 16 + b / 16) :=
      decB64c_b64c _ (by omega)
    have d3 : decB64c (b64c (b % 16 * 4 + c / 64)) = some (b % 16 * 4 + c / 64) :=
      decB64c_b64c _ (by omega)
    have d4 : decB64c (b64c (c % 64)) = some (c % 64) := decB64c_b64c _ (by omega)
    simp only [List.filterMap_cons, d1, d2, d3, d4, List.filterMap_nil,
      List.cons_append, List.nil_append]
    simp only [decSextets, hrest]
    have e1 : a / 4 * 4 + (a % 4 * 16 + b / 16) / 16 = a := by omega
    have e2 : (a % 4 * 16 + b / 16) % 16 * 16 + (b % 16 * 4 + c / 64) / 4 = b := by omega
    have e3 : (b % 16 * 4 + c / 64) % 4 * 64 + c % 64 = c := by omega
    rw [e1, e2, e3]
  | case2 a b =>
    intro h
    have ha : a < 256 := h a (by simp)
    have hb : b < 256 := h b (by simp)
    unfold b64decodeLenient
    rw [b64encodeBytes]
    rw [show [b64c (a / 4), b64c (a % 4 * 16 + b / 16), b64c (b % 16 * 4), '='] ++ ['=', '='] =
        [b64c (a / 4), b64c (a % 4 * 16 + b / 16), b64c (b % 16 * 4)] ++ ['=', '=', '='] by simp]
    rw [takeWhile_append_of_all _ _ _ (by
      intro x hx
      simp only [List.mem_cons, List.mem_singleton] at hx
      rcases hx with rfl | rfl | rfl | h0
      · exact decide_eq_true (b64c_ne_pad _)
      · exact decide_eq_true (b64c_ne_pad _)
      · exact decide_eq_true (b64c_ne_pad _)
      · cases h0)]
    rw [show List.takeWhile (fun c => decide (c ≠ '=')) ['=', '=', '='] = [] by decide]
    have d1 : decB64c (b64c (a / 4)) = some (a / 4) := decB64c_b64c _ (by omega)
    have d2 : decB64c (b64c (a % 4 * 16 + b / 16)) = some (a % 4 * 16 + b / 16) :=
      decB64c_b64c _ (by omega)
    have d3 : decB64c (b64c (b % 16 * 4)) = some (b % 16 * 4) := decB64c_b64c _ (by omega)
    simp only [List.filterMap_cons, d1, d2, d3, List.filterMap_nil, List.append_nil]
    simp only [decSextets]
    have e1 : a / 4 * 4 + (a % 4 * 16 + b / 16) / 16 = a := by omega
    have e2 : (a % 4 * 16 + b / 16) % 16 * 16 + b % 16 * 4 / 4 = b := by omega
    rw [e1, e2]
  | case3 a =>
    intro h
    have ha : a < 256 := h a (by simp)
    unfold b64decodeLenient
    rw [b64encodeBytes]
    rw [show [b64c (a / 4), b64c (a % 4 * 16), '=', '='] ++ ['=', '='] =
        [b64c (a / 4), b64c (a % 4 * 16)] ++ ['=', '=', '=', '='] by simp]
    rw [takeWhile_append_of_all _ _ _ (by
      intro x hx
      simp only [List.mem_cons, List.mem_singleton] at hx
      rcases hx with rfl | rfl | h0
      · exact decide_eq_true (b64c_ne_pad _)
      · exact decide_eq_true (b64c_ne_pad _)
      · cases h0)]
    rw [show List.takeWhile (fun c => decide (c ≠ '=')) ['=', '=', '=', '='] = [] by decide]
    have d1 : decB64c (b64c (a / 4)) = some (a / 4) := decB64c_b64c _ (by omega)
    have d2 : decB64c (b64c (a % 4 * 16)) = some (a % 4 * 16) := decB64c_b64c _ (by omega)
    simp only [List.filterMap_cons, d1, d2, List.filterMap_nil, List.append_nil]
    simp only [decSextets]
    have e1 : a / 4 * 4 + a % 4 * 16 / 16 = a := by omega
    rw [e1]
  | case4 =>
    intro _
    decide

theorem b64encodeBytes_ascii (bs : List Nat) :
    ∀ c ∈ b64encodeBytes bs, c.toNat < 128 := by
  induction bs using b64encodeBytes.induct with
  | case1 a b c rest ih =>
    intro x hx
    rw [b64encodeBytes] at hx
    simp only [List.mem_cons] at hx
    rcases hx with rfl | rfl | rfl | rfl | h0
    · exact b64c_toNat_lt _
    · exact b64c_toNat_lt _
    · exact b64c_toNat_lt _
    · exact b64c_toNat_lt _
    · exact ih x h0
  | case2 a b =>
    intro x hx
    rw [b64encodeBytes] at hx
    simp only [List.mem_cons, List.mem_singleton] at hx
    rcases hx with rfl | rfl | rfl | rfl | h0
    · exact b64c_toNat_lt _
    · exact b64c_toNat_lt _
    · exact b64c_toNat_lt _
    · decide
    · cases h0
  | case3 a =>
    intro x hx
    rw [b64encodeBytes] at hx
    simp only [List.mem_cons, List.mem_singleton] at hx
    rcases hx with rfl | rfl | rfl | rfl | h0
    · exact b64c_toNat_lt _
    · exact b64c_toNat_lt _
    · decide
    · decide
    · cases h0
  | case4 =>
    intro x hx
    rw [b64encodeBytes] at hx
    cases hx

/-- The transport codec roundtrip: deserializing a serialized model
reconstructs it exactly. -/
theorem deserialize_serialize (m : DomainModel) :
    deserializeDomainModel (serializeDomainModel m) = .ok m := by
  unfold serializeDomainModel deserializeDomainModel
  have hall : (String.mk (b64encodeBytes (pickleDumps m))).data.all
      (fun c => c.toNat < 128) = true := by
    rw [List.all_eq_true]
    intro c hc
    exact decide_eq_true (b64encodeBytes_ascii _ c hc)
  rw [if_pos hall]
  show (match b64decodeLenient (b64encodeBytes (pickleDumps m) ++ ['=', '=']) with
    | none => _ | some bytes => _) = _
  rw [b64_roundtrip _ (pickleDumps_lt m)]
  have := pickleLoads_pickleDumps m []
  rw [List.append_nil] at this
  simp [this]

/-! ### Every string a mutation helper returns starts with `"Error "` -/

theorem errStr_append (a b : String) (h : "Error ".data <+: a.data) :
    "Error ".data <+: (a ++ b).data := by
  rw [String.data_append]
  exact h.trans (List.prefix_append _ _)

theorem errAddClass (lib : Lib) (m : DomainModel) (name : String)
    (attrs : List Property) (mths : List MMethod) (ia iro : Bool) (s : String)
    (h : (baseAddClass lib m name attrs mths ia iro).err = some s) :
    "Error ".data <+: s.data := by
  simp only [baseAddClass] at h
  repeat' split at h
  all_goals try simp only [OpOut.err, Option.some_inj] at h
  all_goals first
    | (subst h
       repeat apply errStr_append
       decide)
    | cases h

theorem errAddMethod (lib : Lib) (m : DomainModel)
    (name className vis : String) (ia : Bool)
    (params : List (String × String)) (tn code s : String)
    (h : (baseAddMethodToClass lib m name className vis ia params tn code).err = some s) :
    "Error ".data <+: s.data := by
  simp only [baseAddMethodToClass] at h
  repeat' split at h
  all_goals try simp only [OpOut.err, Option.some_inj] at h
  all_goals first
    | (subst h
       repeat apply errStr_append
       decide)
    | cases h

theorem errAddAttribute (lib : Lib) (m : DomainModel)
    (name className : String) (tnArg : Option String) (mstr vis : String)
    (ic inav iid iro : Bool) (s : String)
    (h : (baseAddAttributeToClass lib m name className tnArg mstr vis ic inav iid iro).err = some s) :
    "Error ".data <+: s.data := by
  simp only [baseAddAttributeToClass] at h
  repeat' split at h
  all_goals try simp only [OpOut.err, Option.some_inj] at h
  all_goals first
    | (subst h
       repeat apply errStr_append
       decide)
    | cases h

theorem errAddAssociation (lib : Lib) (m : DomainModel)
    (name fc tc rf rt mf mt : String) (ibid icomp : Bool) (s : String)
    (h : (baseAddBinaryAssociation lib m name fc tc rf rt mf mt ibid icomp).err = some s) :
    "Error ".data <+: s.data := by
  simp only [baseAddBinaryAssociation] at h
  repeat' split at h
  all_goals try simp only [OpOut.err, Option.some_inj] at h
  all_goals first
    | (subst h
       repeat apply errStr_append
       decide)
    | cases h

theorem errAddAssociationClass (lib : Lib) (m : DomainModel) (name an s : String)
    (h : (baseAddAssociationClass lib m name an).err = some s) :
    "Error ".data <+: s.data := by
  simp only [baseAddAssociationClass] at h
  repeat' split at h
  all_goals try simp only [OpOut.err, Option.some_inj] at h
  all_goals first
    | (subst h
       repeat apply errStr_append
       decide)
    | cases h

theorem errAddEnumeration (lib : Lib) (m : DomainModel) (name : String)
    (lits : List String) (s : String)
    (h : (baseAddEnumeration lib m name lits).err = some s) :
    "Error ".data <+: s.data := by
  simp only [baseAddEnumeration] at h
  repeat' split at h
  all_goals try simp only [OpOut.err, Option.some_inj] at h
  all_goals first
    | (subst h
       repeat apply errStr_append
       decide)
    | cases h

theorem errAddEnumerationLiteral (lib : Lib) (m : DomainModel) (name en s : String)
    (h : (baseAddEnumerationLiteral lib m name en).err = some s) :
    "Error ".data <+: s.data := by
  simp only [baseAddEnumerationLiteral] at h
  repeat' split at h
  all_goals try simp only [OpOut.err, Option.some_inj] at h
  all_goals first
    | (subst h
       repeat apply errStr_append
       decide)
    | cases h

theorem errAddGeneralization (lib : Lib) (m : DomainModel) (g sp s : String)
    (h : (baseAddGeneralization lib m g sp).err = some s) :
    "Error ".data <+: s.data := by
  simp only [baseAddGeneralization] at h
  repeat' split at h
  all_goals try simp only [OpOut.err, Option.some_inj] at h
  all_goals first
    | (subst h
       repeat apply errStr_append
       decide)
    | cases h

theorem errAddOclConstraint (m : DomainModel) (name cn expr s : String)
    (h : (baseAddOclConstraint m name cn expr).err = some s) :
    "Error ".data <+: s.data := by
  simp only [baseAddOclConstraint, OpOut.err] at h
  cases h

theorem errDeleteClass (lib : Lib) (m : DomainModel) (name s : String)
    (h : (baseDeleteClass lib m name).err = some s) :
    "Error ".data <+: s.data := by
  simp only [baseDeleteClass] at h
  repeat' split at h
  all_goals try simp only [OpOut.err, Option.some_inj] at h
  all_goals first
    | (subst h
       repeat apply errStr_append
       decide)
    | cases h

theorem errDeleteMethod (m : DomainModel) (name cn s : String)
    (h : (baseDeleteMethodFromClass m name cn).err = some s) :
    "Error ".data <+: s.data := by
  simp only [baseDeleteMethodFromClass] at h
  repeat' split at h
  all_goals try simp only [OpOut.err, Option.some_inj] at h
  all_goals first
    | (subst h
       repeat apply errStr_append
       decide)
    | cases h

theorem errDeleteAttribute (m : DomainModel) (name cn s : String)
    (h : (baseDeleteAttributeFromClass m name cn).err = some s) :
    "Error ".data <+: s.data := by
  simp only [baseDeleteAttributeFromClass] at h
  repeat' split at h
  all_goals try simp only [OpOut.err, Option.some_inj] at h
  all_goals first
    | (subst h
       repeat apply errStr_append
       decide)
    | cases h

theorem errDeleteAssociation (m : DomainModel) (name s : String)
    (h : (baseDeleteBinaryAssociation m name).err = some s) :
    "Error ".data <+: s.data := by
  simp only [baseDeleteBinaryAssociation] at h
  repeat' split at h
  all_goals try simp only [OpOut.err, Option.some_inj] at h
  all_goals first
    | (subst h
       repeat apply errStr_append
       decide)
    | cases h

theorem errDeleteAssociationClass (lib : Lib) (m : DomainModel) (name s : String)
    (h : (baseDeleteAssociationClass lib m name).err = some s) :
    "Error ".data <+: s.data := by
  simp only [baseDeleteAssociationClass] at h
  repeat' split at h
  all_goals try simp only [OpOut.err, Option.some_inj] at h
  all_goals first
    | (subst h
       repeat apply errStr_append
       decide)
    | cases h

theorem errDeleteEnumeration (lib : Lib) (m : DomainModel) (name s : String)
    (h : (baseDeleteEnumeration lib m name).err = some s) :
    "Error ".data <+: s.data := by
  simp only [baseDeleteEnumeration] at h
  repeat' split at h
  all_goals try simp only [OpOut.err, Option.some_inj] at h
  all_goals first
    | (subst h
       repeat apply errStr_append
       decide)
    | cases h

theorem errDeleteEnumerationLiteral (m : DomainModel) (name en s : String)
    (h : (baseDeleteEnumerationLiteral m name en).err = some s) :
    "Error ".data <+: s.data := by
  simp only [baseDeleteEnumerationLiteral] at h
  repeat' split at h
  all_goals try simp only [OpOut.err, Option.some_inj] at h
  all_goals first
    | (subst h
       repeat apply errStr_append
       decide)
    | cases h

theorem errDeleteGeneralization (m : DomainModel) (g sp s : String)
    (h : (baseDeleteGeneralization m g sp).err = some s) :
    "Error ".data <+: s.data := by
  simp only [baseDeleteGeneralization] at h
  repeat' split at h
  all_goals try simp only [OpOut.err, Option.some_inj] at h
  all_goals first
    | (subst h
       repeat apply errStr_append
       decide)
    | cases h

theorem errDeleteOclConstraint (ident : String → String → Bool)
    (m : DomainModel) (name s : String)
    (h : (baseDeleteOclConstraint ident m name).err = some s) :
    "Error ".data <+: s.data := by
  simp only [baseDeleteOclConstraint, OpOut.err] at h
  cases h

/-! ### Shared helper lemmas for the claims -/

theorem infix_str_right (t a b : String) (h : t.data <:+: b.data) :
    t.data <:+: (a ++ b).data := by
  rw [String.data_append]
  exact h.trans ((List.suffix_append _ _).isInfix)

theorem infix_str_left (t a b : String) (h : t.data <:+: a.data) :
    t.data <:+: (a ++ b).data := by
  rw [String.data_append]
  exact h.trans ((List.prefix_append _ _).isInfix)

theorem stdLib_addTypeSpec : AddTypeSpec stdLib := by
  intro m t
  by_cases h : (m.types.map MType.name).contains t.name
  · right
    refine ⟨"A type with the name \x27" ++ t.name ++ "\x27 already exists in the model", ?_⟩
    simp only [stdLib]
    rw [if_pos h]
  · left
    simp only [stdLib, typesAdd]
    rw [if_neg h]

theorem getClasses_typesAdd_cls (m : DomainModel) (c : MClass) :
    getClasses (typesAdd m (.cls c)) = getClasses m ++ [c] := by
  simp [getClasses, typesAdd, List.filterMap_append]

theorem addClass_dup (lib : Lib) (m : DomainModel) (name : String)
    (attrs : List Property) (mths : List MMethod) (ia iro : Bool)
    (hname : name ∈ (getClasses m).map MClass.name) :
    baseAddClass lib m name attrs mths ia iro =
      { model := m,
        err := some ("Error adding class \x27" ++ name ++ "\x27: A class with name \x27" ++ name ++ "\x27 already exists in the model") } := by
  simp [baseAddClass, hname]

theorem deleteClass_notfound (lib : Lib) (m : DomainModel) (name : String)
    (h : ∀ t ∈ m.types, MType.name t ≠ name) :
    baseDeleteClass lib m name =
      { model := m,
        err := some ("Error removing class \x27" ++ name ++ "\x27: No class with name \x27" ++ name ++ "\x27 exists in the model") } := by
  have hfind : getTypeByName m name = none := by
    rw [getTypeByName, List.find?_eq_none]
    intro t ht
    simpa using h t ht
  simp [baseDeleteClass, hfind]

theorem filterMapClasses_map (f : MClass → MClass) (l : List MType) :
    ((l.map fun t => match t with | MType.cls c => MType.cls (f c) | t => t).filterMap
      fun t => match t with | MType.cls c => some c | _ => none) =
      (l.filterMap fun t => match t with | MType.cls c => some c | _ => none).map f := by
  induction l with
  | nil => simp
  | cons t ts ih => cases t <;> simp [ih]

/-! ### The claims -/

/-- C1: for every domain model `m`, `decode(encode(m))` over the
pickle/base64 transport codec yields a model whose class name list (hence
name set) and whose per-class attribute counts equal those of `m`. -/
theorem c1_codec_roundtrip_observables (m : DomainModel) :
    ∃ m2, deserializeDomainModel (serializeDomainModel m) = .ok m2 ∧
      (getClasses m2).map MClass.name = (getClasses m).map MClass.name ∧
      ((getClasses m2).map fun c => c.attributes.length) =
        ((getClasses m).map fun c => c.attributes.length) :=
  ⟨m, deserialize_serialize m, rfl, rfl⟩

/-- C2: adding a class whose name is not among the model's class names
returns the updated model (no error string), after which `get_classes()`
contains exactly one class with that name; this holds for every library
`add_type` behavior within its contract (insert, or reject with
`ValueError`, in which case the `types.add` fallback inserts). -/
theorem c2_add_class_fresh (lib : Lib) (hlib : AddTypeSpec lib)
    (m : DomainModel) (name : String) (attrs : List Property)
    (mths : List MMethod) (ia iro : Bool)
    (hname : name ∉ (getClasses m).map MClass.name) :
    (baseAddClass lib m name attrs mths ia iro).err = none ∧
      ((getClasses (baseAddClass lib m name attrs mths ia iro).model).countP
        fun c => c.name == name) = 1 := by
  have h0 : ((getClasses m).countP fun c => c.name == name) = 0 := by
    rw [List.countP_eq_zero]
    intro c hc hbeq
    exact hname (List.mem_map.mpr ⟨c, hc, by simpa using hbeq⟩)
  have hmodel : (baseAddClass lib m name attrs mths ia iro).err = none ∧
      (baseAddClass lib m name attrs mths ia iro).model =
        typesAdd m (MType.cls ⟨name, attrs, mths, ia, iro⟩) := by
    rcases hlib m (MType.cls ⟨name, attrs, mths, ia, iro⟩) with hok | ⟨msg, herr⟩
    · simp [baseAddClass, hname, hok]
    · simp [baseAddClass, hname, herr, PyExc.isValueError]
  refine ⟨hmodel.1, ?_⟩
  rw [hmodel.2, getClasses_typesAdd_cls, List.countP_append, h0]
  simp [List.countP_cons]

/-- Witness for C2 at a concrete fresh name. -/
theorem c2_add_class_fresh_witness :
    (baseAddClass stdLib emptyModel "A" [] [] false false).err = none ∧
      ((getClasses (baseAddClass stdLib emptyModel "A" [] [] false false).model).countP
        fun c => c.name == "A") = 1 :=
  c2_add_class_fresh stdLib stdLib_addTypeSpec emptyModel "A" [] [] false false (by decide)

/-- C3: adding a class whose name is already among the model's class names
returns a string containing `"already exists"` and leaves the model
unchanged, for every library behavior. -/
theorem c3_add_class_duplicate (lib : Lib) (m : DomainModel) (name : String)
    (attrs : List Property) (mths : List MMethod) (ia iro : Bool)
    (hname : name ∈ (getClasses m).map MClass.name) :
    (baseAddClass lib m name attrs mths ia iro).model = m ∧
      ∃ s, (baseAddClass lib m name attrs mths ia iro).err = some s ∧
        "already exists".data <:+: s.data := by
  rw [addClass_dup lib m name attrs mths ia iro hname]
  exact ⟨rfl, _, rfl, infix_str_right _ _ _ (by decide)⟩

/-- Witness for C3 at a concrete duplicate name. -/
theorem c3_add_class_duplicate_witness :
    (baseAddClass stdLib modelWithA "A" [] [] false false).model = modelWithA ∧
      ∃ s, (baseAddClass stdLib modelWithA "A" [] [] false false).err = some s ∧
        "already exists".data <:+: s.data :=
  c3_add_class_duplicate stdLib modelWithA "A" [] [] false false (by decide)

/-- C4 (amended): deleting a nonexistent class or binary association
returns a "No ... exists" message and leaves the model unchanged; deleting
a nonexistent method, attribute or enumeration literal does so provided the
owning class/enumeration exists; deleting a nonexistent generalization
returns its "No generalization ... exists" message; but deleting a
nonexistent OCL constraint returns the model unchanged with **no** message
at all. -/
theorem c4_delete_nonexistent (lib : Lib) :
    (∀ (m : DomainModel) (name : String), (∀ t ∈ m.types, MType.name t ≠ name) →
      (baseDeleteClass lib m name).model = m ∧
        (baseDeleteClass lib m name).err =
          some ("Error removing class \x27" ++ name ++ "\x27: No class with name \x27" ++ name ++ "\x27 exists in the model")) ∧
    (∀ (m : DomainModel) (name : String), (∀ a ∈ m.associations, a.name ≠ name) →
      (baseDeleteBinaryAssociation m name).model = m ∧
        (baseDeleteBinaryAssociation m name).err =
          some ("Error removing association \x27" ++ name ++ "\x27: No association with name \x27" ++ name ++ "\x27 exists in model")) ∧
    (∀ (m : DomainModel) (name className : String) (c : MClass),
      getTypeByName m className = some (.cls c) →
      (∀ mm ∈ c.methods, mm.name ≠ name) →
      (baseDeleteMethodFromClass m name className).model = m ∧
        (baseDeleteMethodFromClass m name className).err =
          some ("Error removing method \x27" ++ name ++ "\x27: No method with name \x27" ++ name ++ "\x27 exists in \x27" ++ className ++ "\x27")) ∧
    (∀ (m : DomainModel) (name className : String) (c : MClass),
      getTypeByName m className = some (.cls c) →
      (∀ a ∈ c.attributes, a.name ≠ name) →
      (baseDeleteAttributeFromClass m name className).model = m ∧
        (baseDeleteAttributeFromClass m name className).err =
          some ("Error removing attribute \x27" ++ name ++ "\x27: No attribute with name \x27" ++ name ++ "\x27 exists in \x27" ++ className ++ "\x27")) ∧
    (∀ (m : DomainModel) (name enumerationName en : String) (lits : List String),
      getTypeByName m enumerationName = some (.enum en lits) →
      (∀ l ∈ lits, l ≠ name) →
      (baseDeleteEnumerationLiteral m name enumerationName).model = m ∧
        (baseDeleteEnumerationLiteral m name enumerationName).err =
          some ("Error removing literal \x27" ++ name ++ "\x27: No literal with name \x27" ++ name ++ "\x27 exists in \x27" ++ enumerationName ++ "\x27")) ∧
    (∀ (m : DomainModel) (g sp : String),
      (∀ gen ∈ m.generalizations, ¬(gen.general = g ∧ gen.specific = sp)) →
      (baseDeleteGeneralization m g sp).model = m ∧
        (baseDeleteGeneralization m g sp).err =
          some ("Error removing genralization \x27" ++ g ++ "\x27 <|-- \x27" ++ sp ++ "\x27: No generalization between \x27" ++ g ++ "\x27 and \x27" ++ sp ++ "\x27 exists in model\x27")) ∧
    (∀ (ident : String → String → Bool) (m : DomainModel) (name : String),
      IdentSound ident → (∀ c ∈ m.constraints, c.name ≠ name) →
      (baseDeleteOclConstraint ident m name).model = m ∧
        (baseDeleteOclConstraint ident m name).err = none) := by
  refine ⟨?_, ?_, ?_, ?_, ?_, ?_, ?_⟩
  · intro m name h
    rw [deleteClass_notfound lib m name h]
    exact ⟨rfl, rfl⟩
  · intro m name h
    have hfil : (m.associations.filter fun a => a.name == name) = [] := by
      rw [List.filter_eq_nil]
      intro a ha
      simpa using h a ha
    simp [baseDeleteBinaryAssociation, hfil]
  · intro m name className c hc h
    have hfind : c.methods.find? (fun mm => mm.name == name) = none := by
      rw [List.find?_eq_none]
      intro mm hmm
      simpa using h mm hmm
    simp [baseDeleteMethodFromClass, hc, hfind]
  · intro m name className c hc h
    have hfind : c.attributes.find? (fun a => a.name == name) = none := by
      rw [List.find?_eq_none]
      intro a ha
      simpa using h a ha
    simp [baseDeleteAttributeFromClass, hc, hfind]
  · intro m name enumerationName en lits he h
    have hfind : lits.find? (fun l => l == name) = none := by
      rw [List.find?_eq_none]
      intro l hl
      simpa using h l hl
    simp [baseDeleteEnumerationLiteral, he, hfind]
  · intro m g sp h
    have hfil : (m.generalizations.filter fun gen =>
        (getTypeByName m g).isSome && (getTypeByName m sp).isSome &&
          gen.general == g && gen.specific == sp) = [] := by
      rw [List.filter_eq_nil]
      intro gen hgen
      have := h gen hgen
      simp only [Bool.and_eq_true, beq_iff_eq]
      tauto
    simp [baseDeleteGeneralization, hfil]
  · intro ident m name hsound h
    have hfil : (m.constraints.filter fun c => !(ident c.name name)) = m.constraints := by
      rw [List.filter_eq_self]
      intro c hc
      rw [Bool.not_eq_true']
      by_contra hne
      exact h c hc (hsound _ _ (by revert hne; cases ident c.name name <;> simp))
    constructor
    · show ({ m with constraints := m.constraints.filter fun c => !(ident c.name name) } : DomainModel) = m
      rw [hfil]
    · rfl

set_option maxRecDepth 8192 in
/-- C4 counterexample: deleting the nonexistent OCL constraint `zz` returns
the model with no message at all (the claim requires a "No ... exists"
string), and deleting a method from the nonexistent class `B` yields a
generic "Error processing domain model" string with no "exists" in it. -/
theorem c4_delete_nonexistent_counterexample :
    (baseDeleteOclConstraint identNever modelWithConstraint "zz").err = none ∧
      (baseDeleteOclConstraint identNever modelWithConstraint "zz").model = modelWithConstraint ∧
      (baseDeleteMethodFromClass modelWithA "foo" "B").err =
        some ("Error processing domain model: " ++ noneAttrMsg "methods") ∧
      ¬("exists".data <:+: ("Error processing domain model: " ++ noneAttrMsg "methods").data) := by
  refine ⟨by decide, by decide, by decide, by decide⟩

/-- Witness for C4 (amended) at concrete inputs: the class branch and the
constraint branch. -/
theorem c4_delete_nonexistent_witness :
    ((baseDeleteClass stdLib modelWithA "B").model = modelWithA ∧
      (baseDeleteClass stdLib modelWithA "B").err =
        some ("Error removing class \x27B\x27: No class with name \x27B\x27 exists in the model")) ∧
    ((baseDeleteOclConstraint identNever modelWithConstraint "zz").model = modelWithConstraint ∧
      (baseDeleteOclConstraint identNever modelWithConstraint "zz").err = none) :=
  ⟨(c4_delete_nonexistent stdLib).1 modelWithA "B" (by decide),
   (c4_delete_nonexistent stdLib).2.2.2.2.2.2 identNever modelWithConstraint "zz"
     (fun a b h => by cases h) (by decide)⟩

/-- C5: for every mutation helper (`base_add_*`, `base_delete_*`), every
input, and every behavior of the external library calls (`Lib` oracle,
identity oracle), whenever the helper returns a string — in particular when
a library exception was caught and converted — that string starts with
`"Error "`; the helpers are total functions into `OpOut` (model plus
optional string), so no exception escapes to the caller on these paths. -/
theorem c5_errors_are_strings :
    (∀ (lib : Lib) (m : DomainModel) (name : String) (attrs : List Property)
        (mths : List MMethod) (ia iro : Bool) (s : String),
      (baseAddClass lib m name attrs mths ia iro).err = some s →
        "Error ".data <+: s.data) ∧
    (∀ (lib : Lib) (m : DomainModel) (name className vis : String) (ia : Bool)
        (params : List (String × String)) (tn code s : String),
      (baseAddMethodToClass lib m name className vis ia params tn code).err = some s →
        "Error ".data <+: s.data) ∧
    (∀ (lib : Lib) (m : DomainModel) (name className : String)
        (tnArg : Option String) (mstr vis : String) (ic inav iid iro : Bool) (s : String),
      (baseAddAttributeToClass lib m name className tnArg mstr vis ic inav iid iro).err = some s →
        "Error ".data <+: s.data) ∧
    (∀ (lib : Lib) (m : DomainModel) (name fc tc rf rt mf mt : String)
        (ibid icomp : Bool) (s : String),
      (baseAddBinaryAssociation lib m name fc tc rf rt mf mt ibid icomp).err = some s →
        "Error ".data <+: s.data) ∧
    (∀ (lib : Lib) (m : DomainModel) (name an s : String),
      (baseAddAssociationClass lib m name an).err = some s → "Error ".data <+: s.data) ∧
    (∀ (lib : Lib) (m : DomainModel) (name : String) (lits : List String) (s : String),
      (baseAddEnumeration lib m name lits).err = some s → "Error ".data <+: s.data) ∧
    (∀ (lib : Lib) (m : DomainModel) (name en s : String),
      (baseAddEnumerationLiteral lib m name en).err = some s → "Error ".data <+: s.data) ∧
    (∀ (lib : Lib) (m : DomainModel) (g sp s : String),
      (baseAddGeneralization lib m g sp).err = some s → "Error ".data <+: s.data) ∧
    (∀ (m : DomainModel) (name cn expr s : String),
      (baseAddOclConstraint m name cn expr).err = some s → "Error ".data <+: s.data) ∧
    (∀ (lib : Lib) (m : DomainModel) (name s : String),
      (baseDeleteClass lib m name).err = some s → "Error ".data <+: s.data) ∧
    (∀ (m : DomainModel) (name cn s : String),
      (baseDeleteMethodFromClass m name cn).err = some s → "Error ".data <+: s.data) ∧
    (∀ (m : DomainModel) (name cn s : String),
      (baseDeleteAttributeFromClass m name cn).err = some s → "Error ".data <+: s.data) ∧
    (∀ (m : DomainModel) (name s : String),
      (baseDeleteBinaryAssociation m name).err = some s → "Error ".data <+: s.data) ∧
    (∀ (lib : Lib) (m : DomainModel) (name s : String),
      (baseDeleteAssociationClass lib m name).err = some s → "Error ".data <+: s.data) ∧
    (∀ (lib : Lib) (m : DomainModel) (name s : String),
      (baseDeleteEnumeration lib m name).err = some s → "Error ".data <+: s.data) ∧
    (∀ (m : DomainModel) (name en s : String),
      (baseDeleteEnumerationLiteral m name en).err = some s → "Error ".data <+: s.data) ∧
    (∀ (m : DomainModel) (g sp s : String),
      (baseDeleteGeneralization m g sp).err = some s → "Error ".data <+: s.data) ∧
    (∀ (ident : String → String → Bool) (m : DomainModel) (name s : String),
      (baseDeleteOclConstraint ident m name).err = some s → "Error ".data <+: s.data) :=
  ⟨errAddClass, errAddMethod, errAddAttribute, errAddAssociation,
   errAddAssociationClass, errAddEnumeration, errAddEnumerationLiteral,
   errAddGeneralization, errAddOclConstraint, errDeleteClass, errDeleteMethod,
   errDeleteAttribute, errDeleteAssociation, errDeleteAssociationClass,
   errDeleteEnumeration, errDeleteEnumerationLiteral, errDeleteGeneralization,
   errDeleteOclConstraint⟩

/-- Witness for C5: the duplicate-class error string at a concrete input
starts with `"Error "`. -/
theorem c5_errors_are_strings_witness :
    "Error ".data <+:
      ("Error adding class \x27A\x27: A class with name \x27A\x27 already exists in the model").data :=
  c5_errors_are_strings.1 stdLib modelWithA "A" [] [] false false
    "Error adding class \x27A\x27: A class with name \x27A\x27 already exists in the model"
    (by decide)

theorem baseSqlGeneration_fst (env : SqlGenEnv) (m : DomainModel) (dialect : String) :
    (baseSqlGeneration env m dialect).1 = sqlEnsureIds m := by
  rcases hg : env.generate (sqlEnsureIds m) dialect with _ | _ <;>
    simp [baseSqlGeneration, hg]

theorem getClasses_sqlEnsureIds (m : DomainModel) :
    getClasses (sqlEnsureIds m) = (getClasses m).map (sqlAddId m) := by
  show ((m.types.map _).filterMap _) = (m.types.filterMap _).map _
  exact filterMapClasses_map (sqlAddId m) m.types

/-- C6 (amended): when the model's types include one named `int`, SQL
generation makes every class that had zero attributes gain exactly one
attribute named `id`, typed `int`, marked as identifier (classes are
tracked positionally through `get_classes()`). -/
theorem c6_sql_adds_id (env : SqlGenEnv) (m : DomainModel) (dialect : String)
    (hint : ∃ t ∈ m.types, MType.name t = "int")
    (i : Nat) (hi : i < (getClasses m).length)
    (hempty : ((getClasses m).get ⟨i, hi⟩).attributes = []) :
    ∃ hj : i < (getClasses (baseSqlGeneration env m dialect).1).length,
      ((getClasses (baseSqlGeneration env m dialect).1).get ⟨i, hj⟩).name =
        ((getClasses m).get ⟨i, hi⟩).name ∧
      ((getClasses (baseSqlGeneration env m dialect).1).get ⟨i, hj⟩).attributes.length = 1 ∧
      ∀ p ∈ ((getClasses (baseSqlGeneration env m dialect).1).get ⟨i, hj⟩).attributes,
        p.name = "id" ∧ p.typeName = some "int" ∧ p.isId = true := by
  have hfindSome : (m.types.find? fun t => t.name == "int").isSome := by
    rw [List.find?_isSome]
    obtain ⟨t, ht, hn⟩ := hint
    exact ⟨t, ht, by simp [hn]⟩
  obtain ⟨t0, ht0⟩ := Option.isSome_iff_exists.mp hfindSome
  have ht0name : t0.name = "int" := by simpa using List.find?_some ht0
  have hcls : getClasses (baseSqlGeneration env m dialect).1 =
      (getClasses m).map (sqlAddId m) := by
    rw [baseSqlGeneration_fst, getClasses_sqlEnsureIds]
  have hj : i < (getClasses (baseSqlGeneration env m dialect).1).length := by
    rw [hcls, List.length_map]; exact hi
  refine ⟨hj, ?_⟩
  have hget : (getClasses (baseSqlGeneration env m dialect).1).get ⟨i, hj⟩ =
      sqlAddId m ((getClasses m).get ⟨i, hi⟩) := by
    have := List.get_of_eq hcls ⟨i, hj⟩
    rw [this]
    simp [List.get_eq_getElem]
  have haddid : sqlAddId m ((getClasses m).get ⟨i, hi⟩) =
      { (getClasses m).get ⟨i, hi⟩ with attributes :=
          [{ name := "id", typeName := some t0.name, mult := .raw "1",
             visibility := "public", isComposite := false, isNavigable := true,
             isId := true, isReadOnly := false }] } := by
    unfold sqlAddId
    rw [hempty, ht0]
    rfl
  rw [hget, haddid]
  refine ⟨rfl, rfl, ?_⟩
  intro p hp
  simp only [List.mem_singleton] at hp
  subst hp
  exact ⟨rfl, by rw [ht0name], rfl⟩

/-- C6 counterexample: in a model whose types do not include `int` (here:
a single attribute-less class `A`), SQL generation adds nothing — the class
still has zero attributes afterwards, not exactly one `id` attribute. -/
theorem c6_sql_adds_id_counterexample :
    (baseSqlGeneration benignSqlEnv modelWithA "sqlite").1 = modelWithA ∧
      ((getClasses modelWithA).map fun c => c.attributes.length) = [0] := by
  refine ⟨?_, by decide⟩
  rw [baseSqlGeneration_fst]
  decide

/-- Witness for C6 (amended) at a concrete model containing `int` and the
attribute-less class `A`. -/
theorem c6_sql_adds_id_witness :
    ∃ hj : 0 < (getClasses (baseSqlGeneration benignSqlEnv modelWithIntAndA "sqlite").1).length,
      ((getClasses (baseSqlGeneration benignSqlEnv modelWithIntAndA "sqlite").1).get ⟨0, hj⟩).name =
        ((getClasses modelWithIntAndA).get ⟨0, by decide⟩).name ∧
      ((getClasses (baseSqlGeneration benignSqlEnv modelWithIntAndA "sqlite").1).get ⟨0, hj⟩).attributes.length = 1 ∧
      ∀ p ∈ ((getClasses (baseSqlGeneration benignSqlEnv modelWithIntAndA "sqlite").1).get ⟨0, hj⟩).attributes,
        p.name = "id" ∧ p.typeName = some "int" ∧ p.isId = true :=
  c6_sql_adds_id benignSqlEnv modelWithIntAndA "sqlite" (by decide) 0 (by decide) (by decide)

/-- C7: on a model with zero classes, when the external generator raises
nothing and produces no output file, the SQL generation tool returns the
"no classes" message; moreover for **every** generator behavior the tool
returns a string (it never raises past deserialization of a well-formed
token). -/
theorem c7_sql_no_classes (env : SqlGenEnv) (m : DomainModel) (dialect : String)
    (hgen : ∀ mm d, env.generate mm d = .ok ())
    (hfile : env.tablesFile = none)
    (hempty : getClasses m = []) :
    sqlGenerationBase64 env (serializeDomainModel m) dialect =
      .ok "No SQL generated. The domain model contains no classes." ∧
    ∀ env2 : SqlGenEnv, ∃ s,
      sqlGenerationBase64 env2 (serializeDomainModel m) dialect = .ok s := by
  have hdeser := deserialize_serialize m
  constructor
  · have hout : baseSqlGeneration env m dialect = (sqlEnsureIds m, none) := by
      unfold baseSqlGeneration
      simp [hgen]
    have hcls2 : getClasses (sqlEnsureIds m) = [] := by
      rw [getClasses_sqlEnsureIds, hempty]
      rfl
    simp [sqlGenerationBase64, hdeser, hout, hfile, hcls2,
      Bind.bind, Except.bind, pure, Except.pure]
  · intro env2
    rcases hb : baseSqlGeneration env2 m dialect with ⟨m2, out⟩
    cases out with
    | some msg =>
      exact ⟨msg, by simp [sqlGenerationBase64, hdeser, hb, Bind.bind, Except.bind, pure, Except.pure]⟩
    | none =>
      cases hf : env2.tablesFile with
      | some content =>
        exact ⟨content, by
          simp [sqlGenerationBase64, hdeser, hb, hf, Bind.bind, Except.bind, pure, Except.pure]⟩
      | none =>
        by_cases hc : (getClasses m2).isEmpty
        · exact ⟨"No SQL generated. The domain model contains no classes.", by
            simp [sqlGenerationBase64, hdeser, hb, hf, hc, Bind.bind, Except.bind, pure, Except.pure]⟩
        · exact ⟨"No SQL generated. The domain model contains " ++
              toString (getClasses m2).length ++ " class(es): " ++
              String.intercalate ", " ((getClasses m2).map fun c =>
                c.name ++ " (" ++ toString c.attributes.length ++ " attributes)") ++
              ". The SQL generator may require additional configuration or the classes may not meet SQL generation requirements.", by
            simp [sqlGenerationBase64, hdeser, hb, hf, hc, Bind.bind, Except.bind, pure, Except.pure]⟩

/-- Witness for C7 with the benign generator environment and the empty
model. -/
theorem c7_sql_no_classes_witness :
    sqlGenerationBase64 benignSqlEnv (serializeDomainModel emptyModel) "sqlite" =
      .ok "No SQL generated. The domain model contains no classes." ∧
    ∀ env2 : SqlGenEnv, ∃ s,
      sqlGenerationBase64 env2 (serializeDomainModel emptyModel) "sqlite" = .ok s :=
  c7_sql_no_classes benignSqlEnv emptyModel "sqlite" (fun _ _ => rfl) rfl (by decide)

/-- C8: deserialization failures are raised to the caller (the base64 tool
wrappers propagate the `RuntimeError` rather than returning a string),
while the other error kinds — duplicate name, not-found, generator
failure — come back as `.ok` strings, never as faults. -/
theorem c8_deserialization_faults :
    (∀ (lib : Lib) (s : String) (e : PyExc) (name : String)
        (attrs : List Property) (mths : List MMethod) (ia iro : Bool),
      deserializeDomainModel s = .error e →
        addClassBase64 lib s name attrs mths ia iro = .error e) ∧
    (deserializeDomainModel "AAAA" =
      .error (.runtimeError "Error deserializing model: invalid load key")) ∧
    (∀ (m : DomainModel) (name : String),
      name ∈ (getClasses m).map MClass.name →
      ∃ s, addClassBase64 stdLib (serializeDomainModel m) name [] [] false false = .ok s ∧
        "already exists".data <:+: s.data) ∧
    (∀ (m : DomainModel) (name : String),
      (∀ t ∈ m.types, MType.name t ≠ name) →
      ∃ s, deleteClassBase64 stdLib (serializeDomainModel m) name = .ok s ∧
        "No class".data <:+: s.data) ∧
    (∀ (m : DomainModel) (dialect msg : String) (tf : Option String),
      sqlGenerationBase64 { generate := fun _ _ => .error (.otherError msg), tablesFile := tf }
          (serializeDomainModel m) dialect =
        .ok ("Error generating SQL from domain model: " ++ msg)) := by
  refine ⟨?_, ?_, ?_, ?_, ?_⟩
  · intro lib s e name attrs mths ia iro h
    simp [addClassBase64, h, Bind.bind, Except.bind]
  · rfl
  · intro m name hname
    refine ⟨"Error adding class \x27" ++ name ++ "\x27: A class with name \x27" ++ name ++ "\x27 already exists in the model", ?_, ?_⟩
    · simp [addClassBase64, deserialize_serialize,
        addClass_dup stdLib m name [] [] false false hname,
        Bind.bind, Except.bind, pure, Except.pure]
    · exact infix_str_right _ _ _ (by decide)
  · intro m name h
    refine ⟨"Error removing class \x27" ++ name ++ "\x27: No class with name \x27" ++ name ++ "\x27 exists in the model", ?_, ?_⟩
    · simp [deleteClassBase64, deserialize_serialize,
        deleteClass_notfound stdLib m name h,
        Bind.bind, Except.bind, pure, Except.pure]
    · exact infix_str_left _ _ _ (infix_str_left _ _ _ (infix_str_right _ _ _ (by decide)))
  · intro m dialect msg tf
    have hout : baseSqlGeneration
        { generate := fun _ _ => .error (.otherError msg), tablesFile := tf } m dialect =
        (sqlEnsureIds m, some ("Error generating SQL from domain model: " ++ msg)) := by
      unfold baseSqlGeneration
      simp [PyExc.pyStr]
    simp [sqlGenerationBase64, deserialize_serialize, hout,
      Bind.bind, Except.bind, pure, Except.pure]

/-- Witness for C8: a malformed token makes the add-class tool raise the
deserialization fault. -/
theorem c8_deserialization_faults_witness :
    addClassBase64 stdLib "AAAA" "X" [] [] false false =
      .error (.runtimeError "Error deserializing model: invalid load key") :=
  c8_deserialization_faults.1 stdLib "AAAA"
    (.runtimeError "Error deserializing model: invalid load key") "X" [] [] false false
    rfl

/-- C9: when `class_name` names no type of the model, both method addition
and attribute addition return an error string and leave the model
untouched, for every library behavior. -/
theorem c9_owner_existence (lib : Lib) (m : DomainModel)
    (name className vis tn code : String) (ia : Bool)
    (params : List (String × String)) (tnArg : Option String) (mstr vis2 : String)
    (ic inav iid iro : Bool)
    (h : getTypeByName m className = none) :
    ((baseAddMethodToClass lib m name className vis ia params tn code).model = m ∧
      ∃ s, (baseAddMethodToClass lib m name className vis ia params tn code).err = some s ∧
        "Error ".data <+: s.data) ∧
    ((baseAddAttributeToClass lib m name className tnArg mstr vis2 ic inav iid iro).model = m ∧
      ∃ s, (baseAddAttributeToClass lib m name className tnArg mstr vis2 ic inav iid iro).err = some s ∧
        "Error ".data <+: s.data) := by
  constructor
  · refine ⟨?_, ?_⟩
    · simp [baseAddMethodToClass, h]
    · refine ⟨"Error processing domain model: " ++ noneAttrMsg "methods", ?_, ?_⟩
      · simp [baseAddMethodToClass, h]
      · exact errStr_append _ _ (by decide)
  · refine ⟨?_, ?_⟩
    · simp [baseAddAttributeToClass, h]
    · refine ⟨"Error processing domain model: " ++ noneAttrMsg "attributes", ?_, ?_⟩
      · simp [baseAddAttributeToClass, h]
      · exact errStr_append _ _ (by decide)

/-- Witness for C9 at the concrete missing class name `B`. -/
theorem c9_owner_existence_witness :
    ((baseAddMethodToClass stdLib modelWithA "foo" "B" "public" false [] "str" "").model = modelWithA ∧
      ∃ s, (baseAddMethodToClass stdLib modelWithA "foo" "B" "public" false [] "str" "").err = some s ∧
        "Error ".data <+: s.data) ∧
    ((baseAddAttributeToClass stdLib modelWithA "a" "B" none "1..1" "public" false true false false).model = modelWithA ∧
      ∃ s, (baseAddAttributeToClass stdLib modelWithA "a" "B" none "1..1" "public" false true false false).err = some s ∧
        "Error ".data <+: s.data) :=
  c9_owner_existence stdLib modelWithA "foo" "B" "public" "str" "" false [] none "1..1" "public"
    false true false false (by decide)

/-- C10: `multiplicity_from_string`: splitting on `".."` into anything but
exactly two parts raises `ValueError` with the source's message; `"a..*"`
with `a` an integer literal yields `Multiplicity(int(a), "*")`; `"a..b"`
with both bounds integer literals yields `Multiplicity(int(a), int(b))`. -/
theorem c10_multiplicity_from_string :
    (∀ s : String, (pySplitDotDot s.data).length ≠ 2 →
      multiplicityFromString s =
        .error (.valueError ("Multiplicity string \x27" ++ s ++ "\x27 must have min and max values"))) ∧
    (∀ (s : String) (a : List Char) (n : Int),
      pySplitDotDot s.data = [a, ['*']] → pyIntChars a = .ok n →
      multiplicityFromString s = .ok { min := n, max := .star }) ∧
    (∀ (s : String) (a b : List Char) (n k : Int),
      pySplitDotDot s.data = [a, b] → b ≠ ['*'] →
      pyIntChars a = .ok n → pyIntChars b = .ok k →
      multiplicityFromString s = .ok { min := n, max := .num k }) := by
  refine ⟨?_, ?_, ?_⟩
  · intro s hlen
    unfold multiplicityFromString
    split
    · rename_i a b hsplit
      rw [hsplit] at hlen
      simp at hlen
    · rfl
  · intro s a n hsplit hn
    unfold multiplicityFromString
    split
    · rename_i a2 b2 hsplit2
      rw [hsplit] at hsplit2
      injection hsplit2 with h1 h2
      injection h2 with h2 _
      subst h1
      subst h2
      simp [hn, Bind.bind, Except.bind, pure, Except.pure]
    · rename_i hne
      exact absurd hsplit (hne a ['*'])
  · intro s a b n k hsplit hb hn hk
    unfold multiplicityFromString
    split
    · rename_i a2 b2 hsplit2
      rw [hsplit] at hsplit2
      injection hsplit2 with h1 h2
      injection h2 with h2 _
      subst h1
      subst h2
      simp [hn, hk, hb, Bind.bind, Except.bind, pure, Except.pure]
    · rename_i hne
      exact absurd hsplit (hne a b)

/-- Witness for C10: the three branches at `"1"`, `"0..*"` and `"1..3"`. -/
theorem c10_multiplicity_from_string_witness :
    multiplicityFromString "1" =
      .error (.valueError "Multiplicity string \x271\x27 must have min and max values") ∧
    multiplicityFromString "0..*" = .ok { min := 0, max := .star } ∧
    multiplicityFromString "1..3" = .ok { min := 1, max := .num 3 } :=
  ⟨c10_multiplicity_from_string.1 "1" (by decide),
   c10_multiplicity_from_string.2.1 "0..*" ['0'] 0 (by decide) rfl,
   c10_multiplicity_from_string.2.2 "1..3" ['1'] ['3'] 1 3 (by decide) (by decide) rfl rfl⟩
